import Mathlib

/-!
Shallow embedding of the MODFLOW-6 block/package parsing-and-writing engine
of `flopy/mf6/mfpackage.py` (classes `MFBlockHeader`, `MFBlock`, `MFPackage`).

Conventions of the embedding:
* A text line is represented by its whitespace-separated tokens
  (`Line := List String`); `mfdatautil.ArrayUtil.split_data_line` is thereby
  the identity.  Raw-string length tests of the source are modelled on the
  space-joined tokens.
* Python exceptions are modelled with `Except PyErr` or an `Outcome` field;
  a Python function that falls off the end returns `Option` `none`.
* Machine integers of the source are Python big-ints, so plain `Int` is used.
* External collaborators (`mfdata`, `mfstructure`, `mfdatautil`, the
  per-datatype loaders) are not part of the source tree; the definitions
  standing for them are marked `Modelled from the spec:` in their doc
  comments and follow the specification text.
-/

set_option autoImplicit false

namespace Flopy

/-- Python exception values that the modelled code can raise. -/
inductive PyErr where
  | attributeError (msg : String)
  | indexError
  | valueError
  | keyError
  | assertionError
  | stopIteration
  | nameError
  | fileNotFoundError
  | mfFileParseException (msg : String)
  | mfFileWriteException (msg : String)
  | readAsArraysException (msg : String)
  | mfInvalidTransientBlockHeaderException (msg : String)
  | mfDataException (msg : String)
deriving Repr, DecidableEq

/-- Result of running a statement block that can raise or loop forever. -/
inductive Outcome where
  | ok
  | raised (e : PyErr)
  | hang
deriving Repr, DecidableEq

/-- One input line, represented by its whitespace tokens
(`split_data_line` is spec-modelled as whitespace tokenization). -/
abbrev Line := List String

/-- The space-joined text of a tokenized line (used where the source
inspects the raw string, e.g. `len(next_line[1])`). -/
def joinLine (l : Line) : String := String.intercalate " " l

/-- `str.upper()` (kernel-computable character-wise implementation). -/
def strToUpper (s : String) : String := String.mk (s.toList.map Char.toUpper)

/-- `str.lower()` (kernel-computable character-wise implementation). -/
def strToLower (s : String) : String := String.mk (s.toList.map Char.toLower)

/-- `str.startswith(pre)` (kernel-computable implementation). -/
def strStartsWith (s pre : String) : Bool :=
  s.toList.take pre.toList.length == pre.toList

/-- Modelled from the spec: a token starting with one of the comment markers
`#`, `!`, `//` begins comment text (`mfdata.MFComment`). -/
def isCommentTok (t : String) : Bool :=
  strStartsWith t "#" || strStartsWith t "!" || strStartsWith t "//"

/-- Modelled from the spec: `mfdata.MFComment.is_comment(text, include_empty_line)`
on a whole line; an empty line counts as a comment iff `includeEmpty`. -/
def lineIsComment (l : Line) (includeEmpty : Bool) : Bool :=
  match l with
  | [] => includeEmpty
  | t :: _ => isCommentTok t

/-- Modelled from the spec: `MFComment.is_comment` applied to a single
character (as in `MFPackage._get_block_header_info`); `/` alone is not a
marker because the source tests the two-character prefix `//`. -/
def isCommentChar (c : Char) : Bool := c == '#' || c == '!'

/-- `arr_line[0][:3].upper() == 'END'` together with `len(arr_line[0]) > 2`. -/
def isEndTok (t : String) : Bool := t.length > 2 && strToUpper (t.take 3) == "END"

/-- A line whose first token passes the END test of the source. -/
def isEndLine (l : Line) : Bool :=
  match l with
  | [] => false
  | t :: _ => isEndTok t

/-- `clean_line[:5].upper() == 'BEGIN'` with `len(clean_line) > 4`,
expressed on the first token of the line. -/
def isBeginLine (l : Line) : Bool :=
  match l with
  | [] => false
  | t :: _ => t.length > 4 && strToUpper (t.take 5) == "BEGIN"

/-- Decimal integer parsing on characters: an optional sign followed by at
least one digit (kernel-computable core of Python `int`). -/
def pyIntCore (cs : List Char) : Option Int :=
  let p : Int × List Char :=
    match cs with
    | '-' :: rest => (-1, rest)
    | '+' :: rest => (1, rest)
    | _ => (1, cs)
  if p.2.isEmpty then none
  else if p.2.all Char.isDigit then
    some (p.1 * ((p.2.foldl (fun acc c => acc * 10 + (c.toNat - 48)) 0 : Nat) : Int))
  else none

/-- Python `int(s)`: parses a decimal integer, raising `ValueError` on
malformed text. -/
def pyInt (s : String) : Except PyErr Int :=
  match pyIntCore s.toList with
  | some n => .ok n
  | none => .error .valueError

/-- Strip trailing whitespace (Python `str.rstrip`). -/
def rstrip (s : String) : String :=
  String.mk (s.toList.reverse.dropWhile Char.isWhitespace).reverse

/-- The `type_obj` attribute of a schema data-item node
(`mfstructure.MFDataItemStructure.type_obj`, spec-modelled tag). -/
inductive TypeObj where
  | tInt
  | tFloat
  | tStr
  | tBool
  | tNone
deriving Repr, DecidableEq

/-- The `mfstructure.DataType` enumeration used by `MFBlock.data_factory`. -/
inductive DataType where
  | scalar
  | scalar_keyword
  | scalar_transient
  | scalar_keyword_transient
  | array
  | array_transient
  | list
  | list_transient
  | list_multiple
deriving Repr, DecidableEq

/-- One schema data-item node (`mfstructure.MFDataItemStructure`),
reduced to the attributes the source reads. -/
structure DataItemStructure where
  name : String
  /-- the `type` string of the item, e.g. `"keyword"`, `"integer"`, `"string"` -/
  type : String
  type_obj : TypeObj
deriving Repr, DecidableEq

/-- One schema dataset node (`mfstructure.MFDataStructure`), reduced to the
attributes the source reads.  `datatype` is the result of `get_datatype()`;
`none` models a schema node whose declared data kind is not one of the
supported dataset kinds. -/
structure DataStructure where
  name : String
  /-- the `type` string of the dataset, e.g. `"integer"`, `"recarray"` -/
  type : String
  data_item_structures : List DataItemStructure
  optional : Bool
  /-- `get_keywords()`: the keyword token tuples recognizing this dataset -/
  keywords : List (List String)
  /-- `get_record_size()[0]` -/
  record_size : Nat
  datatype : Option DataType
  file_data : Bool
  /-- the `keyword` attribute read by the lone-recarray fallback -/
  keywordAttr : String
  /-- `first_non_keyword_index()` -/
  first_non_keyword_index : Option Nat
deriving Repr, DecidableEq

/-- A scalar field value inside a record row. -/
inductive ScalarVal where
  | sint (n : Int)
  | sstr (s : String)
deriving Repr, DecidableEq

/-- A non-keyed value, used as the per-key payload of transient holders. -/
inductive BaseVal where
  | bint (n : Int)
  | bstr (s : String)
  | brec (fields : List ScalarVal)
  | brecarray (rows : List (List ScalarVal))
deriving Repr, DecidableEq

/-- Runtime values held by datasets.  `vrecarray` stands for a Python list
of tuples / numpy recarray; `vkeyed` for the per-key storage of transient
data holders (the payloads of which are non-keyed, as produced by
`set_data(data, key=0)`). -/
inductive Value where
  | vint (n : Int)
  | vstr (s : String)
  | vrec (fields : List ScalarVal)
  | vrecarray (rows : List (List ScalarVal))
  | vkeyed (entries : List (Int × BaseVal))
deriving Repr, DecidableEq

/-- View a value as the payload of one transient key. -/
def Value.toBase : Value → BaseVal
  | .vint n => .bint n
  | .vstr s => .bstr s
  | .vrec fs => .brec fs
  | .vrecarray rows => .brecarray rows
  | .vkeyed _ => .brec []

/-- Promote a scalar record field to a value. -/
def ScalarVal.toValue : ScalarVal → Value
  | .sint n => .vint n
  | .sstr s => .vstr s

/-- Demote a value to a scalar record field (header arguments are scalars). -/
def Value.toScalar : Value → ScalarVal
  | .vint n => .sint n
  | .vstr s => .sstr s
  | _ => .sstr ""

/-- Modelled from the spec: render a scalar field back to file text. -/
def renderScalarVal : ScalarVal → String
  | .sint n => toString n
  | .sstr s => s

/-- Modelled from the spec: render a scalar value back to file text
(per-datatype serializers live outside the source tree). -/
def renderScalar : Value → String
  | .vint n => toString n
  | .vstr s => s
  | _ => ""

/-- Modelled from the spec: render any value back to file text. -/
def renderValue : Value → String
  | .vrec fs => String.intercalate " " (fs.map renderScalarVal)
  | .vrecarray rows =>
      String.intercalate " " (rows.map (fun r => String.intercalate " " (r.map renderScalarVal)))
  | v => renderScalar v

/-- An in-memory data holder (`MFScalar` / `MFList` / `MFArray` and their
transient variants; spec-modelled, the concrete classes live outside the
source tree).  `value` is what `get_data()` returns, `validFlag` what
`is_valid()` returns and `isScalar` whether the holder is an `MFScalar`. -/
structure DataItem where
  struct : DataStructure
  value : Option Value
  enabled : Bool
  validFlag : Bool
  isScalar : Bool
  post_data_comments : List String
deriving Repr, DecidableEq

/-- `MFBlock.data_factory` (source lines 246-277): dispatch on the schema
node kind.  The source is an `if/elif` chain with no `else`; a kind that
matches no branch makes the Python function return `None`, modelled by
`none`.  Transient and multi-instance kinds store a supplied initial value
under key `0`. -/
def data_factory (struct : DataStructure) (enable : Bool) (data : Option Value) :
    Option DataItem :=
  match struct.datatype with
  | some .scalar_keyword | some .scalar =>
      some ⟨struct, data, enable, true, true, []⟩
  | some .scalar_keyword_transient | some .scalar_transient =>
      some ⟨struct, data.map (fun v => .vkeyed [(0, v.toBase)]), enable, true, true, []⟩
  | some .array =>
      some ⟨struct, data, enable, true, false, []⟩
  | some .array_transient =>
      some ⟨struct, data.map (fun v => .vkeyed [(0, v.toBase)]), enable, true, false, []⟩
  | some .list =>
      some ⟨struct, data, enable, true, false, []⟩
  | some .list_transient =>
      some ⟨struct, data.map (fun v => .vkeyed [(0, v.toBase)]), enable, true, false, []⟩
  | some .list_multiple =>
      some ⟨struct, data.map (fun v => .vkeyed [(0, v.toBase)]), enable, true, false, []⟩
  | none => none

/-- A block header (`MFBlockHeader`): block name, the raw tokens following
the name, the header comment text and the typed header-argument holders.
`data_items` entries are `Option` because the source appends the raw result
of `data_factory`, which can be Python `None`. -/
structure MFBlockHeader where
  name : String
  variable_strings : List String
  comment : String
  data_items : List (Option DataItem)
deriving Repr, DecidableEq

/-- `MFBlockHeader.is_same_header` (source lines 93-103).  Returns `True`
when the receiver has no data items or the argument has no raw tokens;
otherwise, when the first data item declares a numeric (`int`/`float`)
first field, compares the two first raw tokens; any other typed first field
yields `True`.  Accessing a missing first token of the receiver raises
`IndexError`, and a `None` first data item raises `AttributeError`. -/
def MFBlockHeader.is_same_header (self other : MFBlockHeader) : Except PyErr Bool :=
  if self.data_items.length == 0 || other.variable_strings.length == 0 then
    .ok true
  else
    match self.data_items.head? with
    | none => .error .indexError
    | some none => .error (.attributeError "NoneType has no attribute structure")
    | some (some d0) =>
      match d0.struct.data_item_structures.head? with
      | none => .error .indexError
      | some dis0 =>
        if dis0.type_obj == .tInt || dis0.type_obj == .tFloat then
          match self.variable_strings.head?, other.variable_strings.head? with
          | some a, some b => .ok (a == b)
          | _, _ => .error .indexError
        else
          .ok true

/-- The transient key of a header (`MFBlockHeader.get_transient_key`,
source lines 154-164): the data of the first non-`keyword` data item; for a
recarray value, the entry of the first row at `first_non_keyword_index()`
(the source asserts the index exists and the row is long enough). -/
def getTransientKeyItems : List (Option DataItem) → Except PyErr (Option Value)
  | [] => .ok none
  | none :: _ => .error (.attributeError "NoneType has no attribute structure")
  | some d :: rest =>
      if d.struct.type != "keyword" then
        match d.value with
        | some (.vrecarray rows) =>
            match d.struct.first_non_keyword_index with
            | none => .error .assertionError
            | some i =>
                match rows with
                | [] => .error .indexError
                | r :: _ =>
                    match r[i]? with
                    | some v => .ok (some v.toValue)
                    | none => .error .assertionError
        | v => .ok v
      else
        getTransientKeyItems rest

/-- `MFBlockHeader.get_transient_key` on a header. -/
def MFBlockHeader.get_transient_key (h : MFBlockHeader) : Except PyErr (Option Value) :=
  getTransientKeyItems h.data_items

/-- Modelled from the spec: `get_file_entry(values_only=True, one_based=b)`
of a scalar holder renders its single value, adding one when `one_based`
(integer-typed header scalars render one-based). -/
def scalarFileEntry (d : DataItem) (one_based : Bool) : String :=
  match d.value with
  | some (.vint n) => " " ++ toString (if one_based then n + 1 else n)
  | some v => " " ++ renderValue v
  | none => ""

/-- Modelled from the spec: `get_file_entry()` of a non-scalar holder. -/
def itemFileEntry (d : DataItem) : String :=
  match d.value with
  | some v => " " ++ renderValue v
  | none => ""

/-- `MFBlockHeader.write_header` (source lines 121-136): emits
`BEGIN <name>`, then the first data item (one-based when its declared type
is `integer` and it is a scalar), the remaining items, the header comment,
and a newline. -/
def MFBlockHeader.write_header (h : MFBlockHeader) : Except PyErr String := do
  let start := "BEGIN " ++ h.name
  let body ←
    match h.data_items with
    | [] => pure ""
    | none :: _ => throw (.attributeError "NoneType has no attribute get_file_entry")
    | some d :: rest => do
        let first :=
          if d.isScalar then
            rstrip (scalarFileEntry d (d.struct.type == "integer"))
          else
            rstrip (itemFileEntry d)
        let tail ← rest.foldlM
          (fun acc it =>
            match it with
            | none => throw (.attributeError "NoneType has no attribute get_file_entry")
            | some it' => pure (acc ++ rstrip (scalarFileEntry it' false)))
          ""
        pure (first ++ tail)
  let commentPart := if h.comment != "" then " " ++ h.comment else ""
  pure (start ++ body ++ commentPart ++ "\n")

/-- `MFBlockHeader.write_footer` (source lines 138-147): emits
`END <name>` followed by the first data item (one-based for integer
scalars, without trailing strip in the scalar branch) and a newline. -/
def MFBlockHeader.write_footer (h : MFBlockHeader) : Except PyErr String := do
  let start := "END " ++ h.name
  let body ←
    match h.data_items with
    | [] => pure ""
    | none :: _ => throw (.attributeError "NoneType has no attribute structure")
    | some d :: _ =>
        if d.isScalar then
          pure (scalarFileEntry d (d.struct.type == "integer"))
        else
          pure (rstrip (itemFileEntry d))
  pure (start ++ body ++ "\n")

/-- The schema of one block (`mfstructure.MFBlockStructure`), reduced to
the attributes the source reads.  `variable_dependant_path` and
`variable_value_when_active` drive the conditional-activation rule of
`MFBlock.is_allowed`. -/
structure BlockStructure where
  name : String
  block_header_structure : List DataStructure
  data_structures : List (String × DataStructure)
  repeating : Bool
  variable_dependant_path : Option (List String)
  variable_value_when_active : String × String
deriving Repr, DecidableEq

/-- Modelled from the spec: `number_non_optional_data()` counts the
non-optional datasets of the block schema. -/
def BlockStructure.number_non_optional_data (s : BlockStructure) : Nat :=
  (s.data_structures.filter (fun p => !p.2.optional)).length

/-- Modelled from the spec: `number_non_optional_block_header_data()` counts
the non-optional block-header variables of the block schema. -/
def BlockStructure.number_non_optional_block_header_data (s : BlockStructure) : Nat :=
  (s.block_header_structure.filter (fun d => !d.optional)).length

/-- Modelled from the spec: `get_all_recarrays()` returns the tabular
(record-set) dataset schemas of the block. -/
def BlockStructure.get_all_recarrays (s : BlockStructure) : List DataStructure :=
  (s.data_structures.filter (fun p => p.2.type == "recarray")).map (fun p => p.2)

/-- Python dict assignment `m[k] = v` on an association list: overwrite the
existing binding, else append. -/
def assocSet {α β : Type} [BEq α] (m : List (α × β)) (k : α) (v : β) : List (α × β) :=
  if m.any (fun p => p.1 == k) then
    m.map (fun p => if p.1 == k then (k, v) else p)
  else
    m ++ [(k, v)]

/-- Python dict lookup `m[k]` as an option. -/
def assocGet {α β : Type} [BEq α] (m : List (α × β)) (k : α) : Option β :=
  (m.find? (fun p => p.1 == k)).map (fun p => p.2)

/-- An entry of a block-trailing comment: `MFBlock._save_comments` appends
either a separator `'\n'` or the token list of an unmatched line. -/
inductive CommentEntry where
  | newline
  | toks (l : Line)
deriving Repr, DecidableEq

/-- The mutable state of an `MFBlock` instance.  `datasets` values are
`Option` because the source stores the raw result of `data_factory`,
which can be Python `None`.  The block-scoped entries of the shared data
store (`blk_trailing_comment`, `blk_post_comment`) are kept inline. -/
structure BlockState where
  struct : BlockStructure
  path : List String
  block_headers : List MFBlockHeader
  datasets : List (String × Option DataItem)
  datasets_keyword : List (List String × DataStructure)
  enabled : Bool
  loaded : Bool
  external_file_name : Option String
  blk_trailing_comment : List CommentEntry
  blk_post_comment : String
deriving Repr, DecidableEq

/-- The header-variable branch of `MFBlock._new_dataset` (source lines
332-343): when the schema argument is an `integer` record of size one and a
raw token is supplied, the parsed value minus one is stored (0-based);
otherwise the raw token list is wrapped into a single record row. -/
def newDatasetHeaderItem (dstruct : DataStructure) (initial_val : Option (List String)) :
    Except PyErr (Option DataItem) := do
  match initial_val with
  | none => pure (data_factory dstruct true none)
  | some vs =>
    if dstruct.type == "integer" && vs.length ≥ 1 && dstruct.record_size == 1 then
      match vs.head? with
      | some t => do
          let n ← pyInt t
          pure (data_factory dstruct true (some (.vint (n - 1))))
      | none => throw .indexError
    else
      pure (data_factory dstruct true (some (.vrecarray [vs.map ScalarVal.sstr])))

/-- Replace the last element of a list (Python `l[-1]` mutation). -/
def updateLast {α : Type} (l : List α) (f : α → α) : List α :=
  match l with
  | [] => []
  | [x] => [f x]
  | x :: rest => x :: updateLast rest f

/-- `MFBlock._new_dataset` with `block_header=True`: builds the header data
item, appends it to the data items of the last block header and registers
the keywords of the schema node (source lines 332-343 and 347-348). -/
def MFBlock.new_dataset_header (st : BlockState) (dstruct : DataStructure)
    (initial_val : Option (List String)) : Except PyErr BlockState :=
  if st.block_headers.isEmpty then
    .error .indexError
  else
    match newDatasetHeaderItem dstruct initial_val with
    | .error e => .error e
    | .ok item =>
      let headers := updateLast st.block_headers
        (fun h => { h with data_items := h.data_items ++ [item] })
      let kw := dstruct.keywords.foldl (fun m k => assocSet m k dstruct) st.datasets_keyword
      .ok { st with block_headers := headers, datasets_keyword := kw }

/-- `MFBlock._structure_init` (source lines 279-286): registers every
dataset keyword, then creates the header data items of the initial header
from the block-header schema. -/
def MFBlock.structure_init (st : BlockState) : Except PyErr BlockState := do
  let kw := st.struct.data_structures.foldl
    (fun m p => p.2.keywords.foldl (fun m' k => assocSet m' k p.2) m)
    st.datasets_keyword
  let st1 := { st with datasets_keyword := kw }
  st.struct.block_header_structure.foldlM
    (fun acc ds => MFBlock.new_dataset_header acc ds none) st1

/-- `MFBlock.__init__` (source lines 223-243): one initial header carrying
the block name, no datasets, enabled iff the schema has required data, and
fresh comment store entries. -/
def MFBlock.init (struct : BlockStructure) (path : List String) : Except PyErr BlockState :=
  MFBlock.structure_init
    { struct := struct
      path := path
      block_headers := [⟨struct.name, [], "", []⟩]
      datasets := []
      datasets_keyword := []
      enabled := struct.number_non_optional_data > 0
      loaded := false
      external_file_name := none
      blk_trailing_comment := []
      blk_post_comment := "\n" }

/-- The process-wide path-keyed data store (`simulation_data.mfdata`),
reduced to the entries `MFBlock.is_allowed` reads. -/
abbrev Store := List (List String × Value)

/-- Look up a path in the shared data store. -/
def storeGet (store : Store) (k : List String) : Option Value :=
  (store.find? (fun p => p.1 == k)).map (fun p => p.2)

/-- Modelled from the spec: Python truthiness of a stored value. -/
def pyTruthy : Value → Bool
  | .vint n => n != 0
  | .vstr s => s != ""
  | .vrec fs => !fs.isEmpty
  | .vrecarray rows => !rows.isEmpty
  | .vkeyed m => !m.isEmpty

/-- Modelled from the spec: numeric greater-than comparison of a stored
dependency value against a textual threshold (the source converts the
threshold with `float`; integral thresholds are modelled). -/
def pyNumGT (v : Option Value) (arg : String) : Bool :=
  match v, pyIntCore arg.toList with
  | some (.vint n), some m => n > m
  | _, _ => false

/-- Modelled from the spec: numeric less-than comparison of a stored
dependency value against a textual threshold. -/
def pyNumLT (v : Option Value) (arg : String) : Bool :=
  match v, pyIntCore arg.toList with
  | some (.vint n), some m => n < m
  | _, _ => false

/-- `MFBlock.is_allowed` (source lines 639-676): resolves the
conditional-activation rule against the shared data store.  With no
dependency path the block is always allowed; the `Exists` predicate checks
presence/truthiness, `>` and `<` compare numerically, any other operator
with a present dependency falls through to `True`. -/
def MFBlock.is_allowed (store : Store) (st : BlockState) : Bool :=
  match st.struct.variable_dependant_path with
  | none => true
  | some vdp =>
    let dpath : Option (List String) :=
      if vdp.length == 3 then some (st.path.take 1 ++ vdp)
      else if vdp.length == 2 then some (st.path.take 2 ++ vdp)
      else if vdp.length == 1 then some (st.path.take 3 ++ vdp)
      else none
    let dv : Option Value := dpath.bind (storeGet store)
    let truthy := match dv with | some v => pyTruthy v | none => false
    let op := st.struct.variable_value_when_active.1
    let arg := st.struct.variable_value_when_active.2
    if op == "Exists" then
      if truthy && strToLower arg == "true" then true
      else if !truthy && strToLower arg == "false" then true
      else false
    else if !truthy then false
    else if op == ">" then pyNumGT dv arg
    else if op == "<" then pyNumLT dv arg
    else true

/-- Truthiness of a Python bound method object: the expression
`not dataset.is_valid` of source line 685 negates the *method object*
(the call parentheses are missing), which is always truthy. -/
def boundMethodTruthy : Bool := true

/-- The dataset loop of `MFBlock.is_valid` (source lines 680-686): a
non-optional disabled dataset yields `False`; the enabled-but-invalid test
compares the truthy bound method and can never fire.  A Python-`None`
dataset raises `AttributeError`. -/
def datasetsValidCheck : List (String × Option DataItem) → Except PyErr (Option Bool)
  | [] => .ok none
  | (_, none) :: _ => .error (.attributeError "NoneType has no attribute structure")
  | (_, some d) :: rest =>
      if !d.struct.optional && !d.enabled then .ok (some false)
      else if d.enabled && !boundMethodTruthy then .ok (some false)
      else datasetsValidCheck rest

/-- The header-variable loop of `MFBlock.is_valid` (source lines 688-695)
over the data items of one header. -/
def headerItemsValidCheck : List (Option DataItem) → Except PyErr (Option Bool)
  | [] => .ok none
  | none :: _ => .error (.attributeError "NoneType has no attribute structure")
  | some d :: rest =>
      if !d.struct.optional && !d.enabled then .ok (some false)
      else if d.enabled && !d.validFlag then .ok (some false)
      else headerItemsValidCheck rest

/-- The header-variable loop of `MFBlock.is_valid` over all headers. -/
def headersValidCheck : List MFBlockHeader → Except PyErr (Option Bool)
  | [] => .ok none
  | h :: rest => do
      match ← headerItemsValidCheck h.data_items with
      | some b => pure (some b)
      | none => headersValidCheck rest

/-- `MFBlock.is_valid` (source lines 678-695): checks datasets then header
data items; the function has no `return True` and falls off the end
(Python `None`, modelled `none`) when nothing is invalid. -/
def MFBlock.is_valid (st : BlockState) : Except PyErr (Option Bool) := do
  match ← datasetsValidCheck st.datasets with
  | some b => pure (some b)
  | none => headersValidCheck st.block_headers

/-- The dynamically-typed `key` produced by keyword resolution: Python
`None`, a keyword tuple, or the `keyword` attribute string of the
lone-recarray fallback. -/
inductive PyKey where
  | pynone
  | ktup (toks : List String)
  | kstr (s : String)
deriving Repr, DecidableEq

/-- A keyword tuple matches at the front of a token list,
case-insensitively. -/
def keyMatchesAt (key : List String) (toks : List String) : Bool :=
  !key.isEmpty && (toks.take key.length).map strToLower == key.map strToLower

/-- Modelled from the spec: `mfdatautil.find_keyword` scans the tokens of a
line left-to-right, case-insensitively, and returns the first registered
keyword tuple matching at some position. -/
def find_keyword (arr_line : Line) (kw : List (List String × DataStructure)) :
    Option (List String) :=
  match arr_line with
  | [] => none
  | _ :: rest =>
    match kw.find? (fun p => keyMatchesAt p.1 arr_line) with
    | some p => some p.1
    | none => find_keyword rest kw

/-- Membership of a dynamically-typed key in the keyword dictionary: only
tuple keys can be present. -/
def keyInDict (k : PyKey) (kw : List (List String × DataStructure)) : Bool :=
  match k with
  | .ktup t => kw.any (fun p => p.1 == t)
  | _ => false

/-- Modelled from the spec: `MFComment.is_comment(key, True)` applied to
the dynamically-typed key: Python `None` and the empty string count as
empty (hence comment); a string is a comment when it starts with a marker;
tuple keys do not reach this test. -/
def keyIsComment (k : PyKey) : Bool :=
  match k with
  | .pynone => true
  | .kstr s => s == "" || isCommentTok s
  | .ktup _ => false

/-- `MFBlock._save_comments` (source lines 543-549): a line whose resolved
key is not a registered keyword and reads as a comment is appended to the
block-trailing comments, with a separator between entries. -/
def save_comments (kw : List (List String × DataStructure)) (arr_line : Line) (key : PyKey)
    (comments : List CommentEntry) : List CommentEntry :=
  if !keyInDict key kw then
    if keyIsComment key then
      (if !comments.isEmpty then comments ++ [CommentEntry.newline] else comments)
        ++ [CommentEntry.toks arr_line]
    else comments
  else comments

/-- The attributes of the container package that `MFBlock.load` reads:
the `read_as_arrays` schema flag, the data of the `auxiliary` dataset
(first record row) and the schema of the `aux` dataset. -/
structure ContainerPkg where
  read_as_arrays : Bool
  aux_data : Option (List String)
  aux_struct : DataStructure
deriving Repr, DecidableEq

/-- Observable side effects of loading: delegations to per-dataset loaders
and recursive sub-package loads (`model_or_sim.load_package`). -/
inductive Event where
  | dsLoad (name : String) (line : Line)
  | loadPackage (ptype : String) (fname : String) (fdir : String) (dictName : String)
deriving Repr, DecidableEq

/-- The result contract of a per-datatype loader (spec-modelled, section 6
of the spec): whether scanning continues, the next unconsumed line, how
many further lines of the file the loader consumed, the data now held by
the dataset, and an optional exception. -/
structure DsLoadResult where
  cont : Bool
  next : Option Line
  consumed : Nat
  value : Option Value
  raised : Option PyErr
deriving Repr

/-- The external world of a load: per-dataset loaders, the file system and
the registered package types (`PackageContainer.package_factory`). -/
structure LoadEnv where
  dsLoad : String → Line → List Line → DsLoadResult
  files : String → Option (List Line)
  knownPkg : String → Bool

/-- Modelled from the spec: `os.path.split` on a `/`-separated path. -/
def pathSplit (s : String) : String × String :=
  match (s.splitOn "/").reverse with
  | [] => ("", "")
  | [x] => ("", x)
  | x :: rest => (String.intercalate "/" rest.reverse, x)

/-- Find the first data-item structure typed `keyword` or `string`
together with its index (the loop of `MFBlock._get_package_info`). -/
def findFileDataIndex : List DataItemStructure → Nat → Option (Nat × DataItemStructure)
  | [], _ => none
  | dis :: rest, i =>
      if dis.type == "keyword" || dis.type == "string" then some (i, dis)
      else findFileDataIndex rest (i + 1)

/-- `MFBlock._get_package_info` (source lines 516-541): when the dataset
carries file data and its first `keyword`/`string` item names a registered
package type (item name minus its last character), produce one sub-package
load request per stored file location. -/
def MFBlock.get_package_info (env : LoadEnv) (path : List String) (d : DataItem) :
    Option (List Event) :=
  if !d.struct.file_data then none
  else
    match findFileDataIndex d.struct.data_item_structures 0 with
    | none => none
    | some (i, dis) =>
      let package_type := dis.name.dropRight 1
      if env.knownPkg package_type then
        let file_locations : List String :=
          match d.value with
          | some (.vrecarray rows) => rows.map (fun r => renderScalarVal (r.getD i (.sstr "")))
          | some v => [renderValue v]
          | none => [""]
        some (file_locations.map (fun loc =>
          let sp := pathSplit loc
          let dict_name := package_type ++ "_" ++ (path.getD (path.length - 2) "")
          Event.loadPackage package_type sp.2 sp.1 dict_name))
      else none

/-- Delegate one dataset load to the external loader: raises `KeyError`
when the dataset name is unknown, `AttributeError` when the stored holder
is Python `None`; on success the holder's data is updated with the value
the loader reports. -/
def loadDatasetCall (env : LoadEnv) (datasets : List (String × Option DataItem))
    (name : String) (l : Line) (fd : List Line) :
    Except PyErr (List (String × Option DataItem) × DsLoadResult) :=
  match assocGet datasets name with
  | none => .error .keyError
  | some none => .error (.attributeError "NoneType has no attribute load")
  | some (some _) =>
      let r := env.dsLoad name l fd
      let ds' :=
        if r.value.isSome then
          datasets.map (fun p =>
            if p.1 == name then (p.1, p.2.map (fun d => { d with value := r.value })) else p)
        else datasets
      .ok (ds', r)

/-- The sub-package events triggered after one dataset load (lines 481-486
and 505-510 of the source): `_get_package_info` on the just-loaded holder,
one `load_package` call per entry. -/
def packageEventsFor (env : LoadEnv) (path : List String)
    (datasets : List (String × Option DataItem)) (name : String) : List Event :=
  match assocGet datasets name with
  | some (some d) => (MFBlock.get_package_info env path d).getD []
  | _ => []

/-- `results[1][:3].upper() == 'END'` on the raw returned line. -/
def strStartsEnd (l : Line) : Bool := strToUpper ((joinLine l).take 3) == "END"

/-- `arr_line[0][:3].upper() != 'END'` without a length guard (used by the
single-dataset trailing loop). -/
def tok3NotEnd (l : Line) : Bool :=
  match l with
  | [] => true
  | t :: _ => strToUpper (t.take 3) != "END"

/-- Result of `MFBlock._find_data_by_keyword`. -/
structure FdkOut where
  key : PyKey
  cont : Bool
  next : Option Line
  fd : List Line
  datasets : List (String × Option DataItem)
  events : List Event
  raised : Option PyErr
  hanged : Bool
deriving Repr

/-- The exit disposition of `MFBlock._find_data_by_keyword` (source lines
498-514): with no keyword ever matched, fall back to the lone recarray of
the block when there is exactly one (loading it from the original line),
else report `(None, [None, None])`; with a matched keyword return it with
the loader's continuation. -/
def find_data_dispatch (env : LoadEnv) (struct : BlockStructure) (path : List String)
    (line0 : Line) (datasets : List (String × Option DataItem)) (events : List Event)
    (first_key : Option (List String)) (cont : Bool) (nextl : Option Line)
    (fd : List Line) : FdkOut :=
  match first_key with
  | some fk =>
      { key := .ktup fk, cont := cont, next := nextl, fd := fd, datasets := datasets,
        events := events, raised := none, hanged := false }
  | none =>
    let recarrays := struct.get_all_recarrays
    if recarrays.length != 1 then
      { key := .pynone, cont := false, next := none, fd := fd, datasets := datasets,
        events := events, raised := none, hanged := false }
    else
      match recarrays.head? with
      | none =>
          { key := .pynone, cont := false, next := none, fd := fd, datasets := datasets,
            events := events, raised := some .indexError, hanged := false }
      | some r0 =>
        match loadDatasetCall env datasets r0.name line0 fd with
        | .error e =>
            { key := .pynone, cont := false, next := none, fd := fd, datasets := datasets,
              events := events, raised := some e, hanged := false }
        | .ok (ds', r) =>
          let evs := events ++ [.dsLoad r0.name line0]
          match r.raised with
          | some e =>
              { key := .kstr r0.keywordAttr, cont := r.cont, next := r.next,
                fd := fd.drop r.consumed, datasets := ds', events := evs,
                raised := some e, hanged := false }
          | none =>
              { key := .kstr r0.keywordAttr, cont := r.cont, next := r.next,
                fd := fd.drop r.consumed, datasets := ds',
                events := evs ++ packageEventsFor env path ds' r0.name,
                raised := none, hanged := false }

/-- The scanning loop of `MFBlock._find_data_by_keyword` (source lines
471-497), fueled: while the previous loader asked to continue, split the
current line, look for a registered keyword and delegate on a match; a
`readasarrays` token inside an `options` block of a package not declared
read-as-arrays raises `ReadAsArraysException`; any other unmatched token
ends the scan. -/
def find_data_go (env : LoadEnv) (cp : ContainerPkg) (struct : BlockStructure)
    (path : List String) (kw : List (List String × DataStructure)) (line0 : Line) :
    Nat → List (String × Option DataItem) → List Event →
    Option (List String) → Bool → Option Line → List Line → FdkOut
  | gas, datasets, events, first_key, cont, nextl, fd =>
      if !cont then
        find_data_dispatch env struct path line0 datasets events first_key cont nextl fd
      else
        match gas with
        | 0 =>
            { key := .pynone, cont := cont, next := nextl, fd := fd, datasets := datasets,
              events := events, raised := none, hanged := true }
        | gas + 1 =>
        match nextl with
        | none =>
            { key := .pynone, cont := cont, next := nextl, fd := fd, datasets := datasets,
              events := events,
              raised := some (.attributeError "NoneType has no attribute strip"),
              hanged := false }
        | some l =>
          match find_keyword l kw with
          | some key =>
            match assocGet kw key with
            | none =>
                { key := .ktup key, cont := cont, next := nextl, fd := fd,
                  datasets := datasets, events := events, raised := some .keyError,
                  hanged := false }
            | some dsStruct =>
              match loadDatasetCall env datasets dsStruct.name l fd with
              | .error e =>
                  { key := .ktup key, cont := cont, next := nextl, fd := fd,
                    datasets := datasets, events := events, raised := some e,
                    hanged := false }
              | .ok (ds', r) =>
                let evs := events ++ [.dsLoad dsStruct.name l]
                match r.raised with
                | some e =>
                    { key := .ktup key, cont := r.cont, next := r.next,
                      fd := fd.drop r.consumed, datasets := ds', events := evs,
                      raised := some e, hanged := false }
                | none =>
                    let evs2 := evs ++ packageEventsFor env path ds' dsStruct.name
                    find_data_go env cp struct path kw line0 gas ds' evs2
                      (some (first_key.getD key)) r.cont r.next (fd.drop r.consumed)
          | none =>
            match l.head? with
            | none =>
                { key := .pynone, cont := cont, next := nextl, fd := fd,
                  datasets := datasets, events := events, raised := some .indexError,
                  hanged := false }
            | some t0 =>
              if strToLower t0 == "readasarrays"
                  && strToLower (path.getLast?.getD "") == "options"
                  && cp.read_as_arrays == false then
                { key := .pynone, cont := cont, next := nextl, fd := fd,
                  datasets := datasets, events := events,
                  raised := some (.readAsArraysException
                    "ERROR: Attempting to read a ReadAsArrays package as a non-ReadAsArrays package"),
                  hanged := false }
              else
                find_data_dispatch env struct path line0 datasets events first_key cont nextl fd

/-- `MFBlock._find_data_by_keyword` on one starting line. -/
def find_data_by_keyword (env : LoadEnv) (cp : ContainerPkg) (struct : BlockStructure)
    (path : List String) (kw : List (List String × DataStructure))
    (datasets : List (String × Option DataItem)) (events : List Event)
    (line : Line) (fd : List Line) : FdkOut :=
  find_data_go env cp struct path kw line (fd.length + 1) datasets events none true (some line) fd

/-- Result of the leading comment-skipping loop of `MFBlock.load` (source
lines 396-404); at end-of-file `readline` returns the empty string, which
`is_comment(line, True)` accepts, so the source loops forever (`hanged`). -/
structure SkipCommentsOut where
  comments : List Line
  line : Line
  fd : List Line
  hanged : Bool
deriving Repr

/-- The leading comment-skipping loop of `MFBlock.load`. -/
def skip_initial_comments : List Line → SkipCommentsOut
  | [] => ⟨[], [], [], true⟩
  | l :: rest =>
      if lineIsComment l true then
        let r := skip_initial_comments rest
        ⟨l :: r.comments, r.line, r.fd, r.hanged⟩
      else ⟨[], l, rest, false⟩

/-- Result of the trailing-comment loop of the single-dataset branch. -/
structure SingleTrailOut where
  post : List String
  fd : List Line
deriving Repr

/-- The trailing-comment loop of the single-dataset branch of
`MFBlock.load` (source lines 431-438): consume lines after the dataset
until an END-marked or empty line, collecting them as post-data
comments. -/
def single_trailing_loop : List Line → Option Line → Line → List String → SingleTrailOut
  | fd, nextl, arr, post =>
    let rawNl := match nextl with | some nl => joinLine nl | none => ""
    if !(!arr.isEmpty && (rawNl.length ≤ 2 || tok3NotEnd arr)) then ⟨post, fd⟩
    else
      match fd with
      | [] => ⟨post, []⟩
      | l :: rest =>
          let post' :=
            if !l.isEmpty && ((joinLine l).length ≤ 2 || tok3NotEnd l) then
              post ++ [String.intercalate " " l]
            else post
          single_trailing_loop rest (some l) l post'

/-- Result of the unordered multi-dataset loop of `MFBlock.load`. -/
structure MultiLoopOut where
  datasets : List (String × Option DataItem)
  events : List Event
  comments : List CommentEntry
  fd : List Line
  raised : Option PyErr
  hanged : Bool
deriving Repr

/-- The unordered multi-dataset loop of `MFBlock.load` (source lines
452-465), fueled by the number of remaining lines (every iteration reads at
least one line): read a line, stop at end-of-file or an END token,
otherwise resolve it by keyword and record unmatched comment lines. -/
def multi_loop (env : LoadEnv) (cp : ContainerPkg) (struct : BlockStructure)
    (path : List String) (kw : List (List String × DataStructure)) :
    Nat → List (String × Option DataItem) → List Event → List CommentEntry →
    List Line → MultiLoopOut
  | gas, datasets, events, comments, fd =>
    match fd with
    | [] => ⟨datasets, events, comments, [], none, false⟩
    | l :: rest =>
      match gas with
      | 0 => ⟨datasets, events, comments, l :: rest, none, true⟩
      | gas + 1 =>
      if l.isEmpty then
        multi_loop env cp struct path kw gas datasets events comments rest
      else if isEndLine l then
        ⟨datasets, events, comments, rest, none, false⟩
      else
        let fdk := find_data_go env cp struct path kw l (rest.length + 1) datasets events
          none true (some l) rest
        match fdk.raised with
        | some e => ⟨fdk.datasets, fdk.events, comments, fdk.fd, some e, false⟩
        | none =>
          if fdk.hanged then ⟨fdk.datasets, fdk.events, comments, fdk.fd, none, true⟩
          else
            let comments' := save_comments kw l fdk.key comments
            match fdk.next with
            | some nl =>
                if strStartsEnd nl then
                  ⟨fdk.datasets, fdk.events, comments', fdk.fd, none, false⟩
                else
                  multi_loop env cp struct path kw gas fdk.datasets fdk.events comments' fdk.fd
            | none =>
                multi_loop env cp struct path kw gas fdk.datasets fdk.events comments' fdk.fd

/-- Result of `MFBlock.load`: the block state as of return (or as of the
raise), the remaining lines of the containing file, warnings printed,
observable events, the outcome and the external files opened by the
open/close redirection (the source never closes them). -/
structure LoadResult where
  state : BlockState
  fd : List Line
  warnings : List String
  events : List Event
  outcome : Outcome
  openedExternal : List String
deriving Repr

/-- The duplicate-header scan of `MFBlock.load` (source lines 366-372). -/
def check_duplicate : List MFBlockHeader → MFBlockHeader → Except PyErr Bool
  | [], _ => .ok false
  | h :: rest, bh =>
      match h.is_same_header bh with
      | .error e => .error e
      | .ok true => .ok true
      | .ok false => check_duplicate rest bh

/-- The read-as-arrays auxiliary-keyword registration of `MFBlock.load`
(source lines 386-392): each auxiliary variable name beyond the first
becomes a recognized keyword mapping to the `aux` schema node. -/
def registerAuxKeywords (cp : ContainerPkg) (kw : List (List String × DataStructure)) :
    List (List String × DataStructure) :=
  if cp.read_as_arrays then
    match cp.aux_data with
    | some row => (row.drop 1).foldl (fun m v => assocSet m [v] cp.aux_struct) kw
    | none => kw
  else kw

/-- The common tail of `MFBlock.load` (source lines 467-469): store the
collected trailing comments, mark the block loaded, and run the
informational validity check (whose result is discarded but whose
exceptions propagate). -/
def MFBlock.load_finish (st : BlockState) (datasets : List (String × Option DataItem))
    (comments : List CommentEntry) (fd : List Line) (warnings : List String)
    (events : List Event) (opened : List String) : LoadResult :=
  let st' := { st with datasets := datasets, blk_trailing_comment := comments, loaded := true }
  match MFBlock.is_valid st' with
  | .error e =>
      { state := st', fd := fd, warnings := warnings, events := events,
        outcome := .raised e, openedExternal := opened }
  | .ok _ =>
      { state := st', fd := fd, warnings := warnings, events := events,
        outcome := .ok, openedExternal := opened }

/-- The body of `MFBlock.load` downstream of the open/close handling
(source lines 416-469), reading from `curFd` (the external file when
`isExt`).  On return the containing file's position is `fdMain` when the
block redirected to an external file, else the final reading position. -/
def MFBlock.load_body2 (env : LoadEnv) (cp : ContainerPkg) (st : BlockState)
    (line : Line) (curFd : List Line) (fdMain : List Line) (isExt : Bool)
    (opened : List String) : LoadResult :=
  let retFd := fun (f : List Line) => if isExt then fdMain else f
  if st.struct.data_structures.length ≤ 1 then
    match st.datasets.head? with
    | none =>
        { state := st, fd := retFd curFd, warnings := [], events := [],
          outcome := .raised .stopIteration, openedExternal := opened }
    | some (name, _) =>
      match loadDatasetCall env st.datasets name line curFd with
      | .error e =>
          { state := st, fd := retFd curFd, warnings := [], events := [],
            outcome := .raised e, openedExternal := opened }
      | .ok (ds', r) =>
        let events := [Event.dsLoad name line]
        match r.raised with
        | some e =>
            { state := { st with datasets := ds' }, fd := retFd (curFd.drop r.consumed),
              warnings := [], events := events, outcome := .raised e,
              openedExternal := opened }
        | none =>
          let events := events ++ packageEventsFor env st.path ds' name
          let fd1 := curFd.drop r.consumed
          let arr : Line := match r.next with | some nl => nl | none => []
          let tr := single_trailing_loop fd1 r.next arr []
          let ds2 := ds'.map (fun p =>
            if p.1 == name then (p.1, p.2.map (fun d => { d with post_data_comments := tr.post }))
            else p)
          MFBlock.load_finish st ds2 [] (retFd tr.fd) [] events opened
  else
    let fdk := find_data_by_keyword env cp st.struct st.path st.datasets_keyword
      st.datasets [] line curFd
    match fdk.raised with
    | some (.mfInvalidTransientBlockHeaderException m) =>
        { state := { st with datasets := fdk.datasets
                             block_headers := st.block_headers.dropLast },
          fd := retFd fdk.fd,
          warnings := ["WARNING: " ++ m], events := fdk.events, outcome := .ok,
          openedExternal := opened }
    | some e =>
        { state := { st with datasets := fdk.datasets }, fd := retFd fdk.fd,
          warnings := [], events := fdk.events, outcome := .raised e,
          openedExternal := opened }
    | none =>
      if fdk.hanged then
        { state := { st with datasets := fdk.datasets }, fd := retFd fdk.fd,
          warnings := [], events := fdk.events, outcome := .hang,
          openedExternal := opened }
      else
        let comments1 := save_comments st.datasets_keyword line fdk.key []
        let enterLoop := match fdk.next with
          | some nl => !strStartsEnd nl
          | none => true
        if enterLoop then
          let ml := multi_loop env cp st.struct st.path st.datasets_keyword
            (fdk.fd.length + 1) fdk.datasets fdk.events comments1 fdk.fd
          match ml.raised with
          | some e =>
              { state := { st with datasets := ml.datasets }, fd := retFd ml.fd,
                warnings := [], events := ml.events, outcome := .raised e,
                openedExternal := opened }
          | none =>
            if ml.hanged then
              { state := { st with datasets := ml.datasets }, fd := retFd ml.fd,
                warnings := [], events := ml.events, outcome := .hang,
                openedExternal := opened }
            else
              MFBlock.load_finish st ml.datasets ml.comments (retFd ml.fd) [] ml.events opened
        else
          MFBlock.load_finish st fdk.datasets comments1 (retFd fdk.fd) [] fdk.events opened

/-- The body of `MFBlock.load` from the first content line on (source
lines 406-469): an END line means an empty block; an `open/close`
directive reads one further (discarded) line from the containing file,
records the external file name and redirects reading into the external
file, which is opened and never closed. -/
def MFBlock.load_body (env : LoadEnv) (cp : ContainerPkg) (st : BlockState)
    (line : Line) (fdMain : List Line) : LoadResult :=
  if isEndLine line then
    MFBlock.load_finish st st.datasets [] fdMain [] [] []
  else if (match line.head? with | some t => strToLower t == "open/close" | none => false) then
    let fdMain' := fdMain.drop 1
    match line.get? 1 with
    | none =>
        { state := st, fd := fdMain', warnings := [], events := [],
          outcome := .raised .indexError, openedExternal := [] }
    | some extName =>
      let stE := { st with external_file_name := some extName }
      match env.files extName with
      | none =>
          { state := stE, fd := fdMain', warnings := [], events := [],
            outcome := .raised .fileNotFoundError, openedExternal := [] }
      | some extLines =>
        match extLines with
        | [] => MFBlock.load_body2 env cp stE [] [] fdMain' true [extName]
        | el :: erest => MFBlock.load_body2 env cp stE el erest fdMain' true [extName]
  else
    MFBlock.load_body2 env cp st line fdMain fdMain false []

/-- The tail of `MFBlock.load` past the two guards (source lines 380-469):
build the typed header-argument dataset of the freshly registered header,
register read-as-arrays auxiliary keywords, skip leading comments, and
parse the body.  `st1` is the state with the new header appended. -/
def MFBlock.load_after_guards (env : LoadEnv) (cp : ContainerPkg) (st1 : BlockState)
    (block_header : MFBlockHeader) (fd : List Line) : LoadResult :=
  match (match st1.struct.block_header_structure.head? with
         | none => Except.ok st1
         | some ds => MFBlock.new_dataset_header st1 ds (some block_header.variable_strings)) with
  | .error e =>
      { state := st1, fd := fd, warnings := [], events := [], outcome := .raised e,
        openedExternal := [] }
  | .ok st2 =>
    let st3 := { st2 with datasets_keyword := registerAuxKeywords cp st2.datasets_keyword }
    let sk := skip_initial_comments fd
    if sk.hanged then
      { state := st3, fd := sk.fd, warnings := [], events := [], outcome := .hang,
        openedExternal := [] }
    else
      MFBlock.load_body env cp st3 sk.line sk.fd

/-- `MFBlock.load` (source lines 357-469).  The two guard paths (header
shortfall, duplicate repeating header) print a warning and return with the
state untouched; otherwise the header is registered and the body parsed. -/
def MFBlock.load (env : LoadEnv) (cp : ContainerPkg) (st : BlockState)
    (block_header : MFBlockHeader) (fd : List Line) : LoadResult :=
  if block_header.variable_strings.length < st.struct.number_non_optional_block_header_data then
    { state := st, fd := fd,
      warnings := ["WARNING: Block header for block does not contain the correct number of variables"],
      events := [], outcome := .ok, openedExternal := [] }
  else
    match (if st.loaded then check_duplicate st.block_headers block_header else .ok false) with
    | .error e =>
        { state := st, fd := fd, warnings := [], events := [], outcome := .raised e,
          openedExternal := [] }
    | .ok true =>
        { state := st, fd := fd,
          warnings := ["WARNING: Block header for block is not a unique block header"],
          events := [], outcome := .ok, openedExternal := [] }
    | .ok false =>
      MFBlock.load_after_guards env cp
        { st with enabled := true
                  block_headers := (if st.loaded then st.block_headers else []) ++ [block_header] }
        block_header fd

/-- Modelled from the spec: the `repeating` property of a data holder is
set for the transient and multi-instance kinds. -/
def DataItem.repeating (d : DataItem) : Bool :=
  match d.struct.datatype with
  | some .scalar_transient | some .scalar_keyword_transient
  | some .array_transient | some .list_transient | some .list_multiple => true
  | _ => false

/-- Modelled from the spec: `get_active_key_list()` of a transient holder
returns its stored keys (the source reads `key[0]` of each entry). -/
def DataItem.get_active_key_list (d : DataItem) : List Int :=
  match d.value with
  | some (.vkeyed m) => m.map (fun p => p.1)
  | _ => []

/-- Modelled from the spec: `has_data()` of a holder reports whether data
is present. -/
def DataItem.has_data (d : DataItem) : Bool := d.value.isSome

/-- `MFBlock.is_empty` (source lines 350-355): no dataset holds data.  A
Python-`None` dataset raises `AttributeError` at `has_data()`. -/
def MFBlock.is_empty_check : List (String × Option DataItem) → Except PyErr Bool
  | [] => .ok true
  | (_, none) :: _ => .error (.attributeError "NoneType has no attribute has_data")
  | (_, some d) :: rest =>
      if d.has_data then .ok false else MFBlock.is_empty_check rest

/-- The header scan of `MFBlock._header_exists` (source lines 583-588). -/
def headerExistsGo (comp : List Value) : List MFBlockHeader → Except PyErr Bool
  | [] => .ok false
  | h :: rest => do
      let tk ← h.get_transient_key
      match tk with
      | some t => if comp.any (fun c => c == t) then pure true else headerExistsGo comp rest
      | none => headerExistsGo comp rest

/-- `MFBlock._header_exists` (source lines 578-588): some block header
reports the given transient key (a list key is compared element-wise). -/
def MFBlock.header_exists (st : BlockState) (key : Value) : Except PyErr Bool :=
  let comp : List Value :=
    match key with
    | .vrec fs => fs.map ScalarVal.toValue
    | k => [k]
  headerExistsGo comp st.block_headers

/-- `MFBlockHeader.build_header_variables` (source lines 61-91): when the
first schema argument is a bare keyword its name is synthesized as the
first value; the arguments are wrapped into one record row and handed to
the variant factory, replacing the header's data items. -/
def MFBlockHeader.build_header_variables (h : MFBlockHeader)
    (block_header_structure : List DataStructure) (data : List Value) :
    Except PyErr MFBlockHeader := do
  match block_header_structure.head? with
  | none => throw .indexError
  | some hs =>
    match hs.data_item_structures.head? with
    | none => throw .indexError
    | some dis0 =>
      let fixed0 : List Value := if dis0.type == "keyword" then [.vstr dis0.name] else []
      let fixed := fixed0 ++ data
      let dataArg : Option Value :=
        if fixed.isEmpty then some (.vrecarray [])
        else some (.vrecarray [fixed.map Value.toScalar])
      pure { h with data_items := [data_factory hs true dataArg] }

/-- `MFBlock._build_repeating_header` (source lines 315-330): if no header
reports the key yet, reuse the last header unless it already carries a
value (then append a fresh one), and build its header variables. -/
def MFBlock.build_repeating_header (st : BlockState) (header_data : List Value) :
    Except PyErr BlockState := do
  match header_data.head? with
  | none => throw .indexError
  | some k0 =>
    if ← MFBlock.header_exists st k0 then
      pure st
    else
      match st.block_headers.getLast? with
      | none => throw .indexError
      | some lastH => do
        let lastHasValue ←
          if lastH.data_items.length == 1 then
            match lastH.data_items.head? with
            | some (some d) => pure d.value.isSome
            | some none => throw (.attributeError "NoneType has no attribute get_data")
            | none => pure false
          else pure false
        let headers :=
          if lastHasValue then st.block_headers ++ [⟨st.struct.name, [], "", []⟩]
          else st.block_headers
        match headers.getLast? with
        | none => throw .indexError
        | some h => do
          let h2 ← h.build_header_variables st.struct.block_header_structure header_data
          pure { st with block_headers := updateLast headers (fun _ => h2) }

/-- `MFBlock._add_missing_block_headers` (source lines 573-576). -/
def MFBlock.add_missing_block_headers (st : BlockState) (d : DataItem) :
    Except PyErr BlockState :=
  d.get_active_key_list.foldlM
    (fun acc k => do
      if ← MFBlock.header_exists acc (.vint k) then pure acc
      else MFBlock.build_repeating_header acc [.vint k])
    st

/-- The scan of `MFBlock._find_repeating_datasets` (source lines 590-595). -/
def findRepeatingGo : List (String × Option DataItem) → Except PyErr (List DataItem)
  | [] => .ok []
  | (_, none) :: _ => .error (.attributeError "NoneType has no attribute repeating")
  | (_, some d) :: rest => do
      let tail ← findRepeatingGo rest
      pure (if d.repeating then d :: tail else tail)

/-- Modelled from the spec: `MFComment.write` renders the stored
block-trailing comment entries back to text. -/
def renderCommentEntries (ce : List CommentEntry) : String :=
  String.join (ce.map (fun e =>
    match e with
    | CommentEntry.newline => "\n"
    | CommentEntry.toks l => joinLine l))

/-- The external world of a write: per-dataset serializers
(`get_file_entry`, optionally keyed by the transient key), the
`comments_on` switch and the indent string of the simulation data. -/
structure WriteEnv where
  fileEntry : String → DataItem → Option Value → Except PyErr String
  comments_on : Bool
  indent : String

/-- The output of writing one block instance: the chunks written to the
parent file and to the external file, whether an external handle was
opened and whether it was closed again, and the outcome. -/
structure WOut where
  parent : List String
  ext : List String
  extOpened : Bool
  extClosed : Bool
  outcome : Outcome
deriving Repr, DecidableEq

/-- The dataset loop of `MFBlock._write_block` (source lines 612-619):
serialize every dataset, passing the transient key to repeating holders;
a Python-`None` dataset raises `AttributeError`; serializer exceptions
abort the loop, keeping what was already written. -/
def writeDatasetsLoop (wenv : WriteEnv) (tkey : Option Value) :
    List (String × Option DataItem) → List String → (List String × Option PyErr)
  | [], acc => (acc, none)
  | (name, od) :: rest, acc =>
    match od with
    | none => (acc, some (.attributeError "NoneType has no attribute get_file_entry"))
    | some d =>
      let entry :=
        match tkey with
        | none => wenv.fileEntry name d none
        | some k =>
            if d.repeating then wenv.fileEntry name d (some k)
            else wenv.fileEntry name d none
      match entry with
      | .error e => (acc, some e)
      | .ok s => writeDatasetsLoop wenv tkey rest (acc ++ [s])

/-- `MFBlock._write_block` (source lines 597-637): header to the parent
file; with an external file recorded, an `open/close` line to the parent
and the datasets and trailing comments into the freshly opened external
file, which is closed before the footer; footer, post-block comment and
the optional blank separator go to the parent.  There is no `finally`:
when a serializer raises while the external file is open, the handle stays
open and the parent handle is not restored. -/
def MFBlock.write_block (wenv : WriteEnv) (st : BlockState) (h : MFBlockHeader) : WOut :=
  match h.write_header with
  | .error e => ⟨[], [], false, false, .raised e⟩
  | .ok hdr =>
    let tkeyE : Except PyErr (Option Value) :=
      if h.data_items.length > 0 then h.get_transient_key else .ok none
    match tkeyE with
    | .error e => ⟨[hdr], [], false, false, .raised e⟩
    | .ok tkey =>
      match st.external_file_name with
      | some extName =>
          let parent0 := [hdr, wenv.indent ++ "open/close " ++ extName ++ "\n"]
          let dsr := writeDatasetsLoop wenv tkey st.datasets []
          match dsr.2 with
          | some e => ⟨parent0, dsr.1, true, false, .raised e⟩
          | none =>
            let extOut := dsr.1 ++ [renderCommentEntries st.blk_trailing_comment]
            match h.write_footer with
            | .error e => ⟨parent0, extOut, true, true, .raised e⟩
            | .ok ftr =>
                ⟨parent0 ++ [ftr, st.blk_post_comment]
                    ++ (if !wenv.comments_on then ["\n"] else []),
                  extOut, true, true, .ok⟩
      | none =>
          let dsr := writeDatasetsLoop wenv tkey st.datasets []
          match dsr.2 with
          | some e => ⟨[hdr] ++ dsr.1, [], false, false, .raised e⟩
          | none =>
            match h.write_footer with
            | .error e =>
                ⟨[hdr] ++ dsr.1 ++ [renderCommentEntries st.blk_trailing_comment], [],
                  false, false, .raised e⟩
            | .ok ftr =>
                ⟨[hdr] ++ dsr.1 ++ [renderCommentEntries st.blk_trailing_comment, ftr,
                    st.blk_post_comment]
                    ++ (if !wenv.comments_on then ["\n"] else []),
                  [], false, false, .ok⟩

/-- The per-header emission loop of `MFBlock.write`. -/
def writeHeadersLoop (wenv : WriteEnv) (st : BlockState) :
    List MFBlockHeader → List WOut → (List WOut × Outcome)
  | [], acc => (acc, .ok)
  | h :: rest, acc =>
      let w := MFBlock.write_block wenv st h
      match w.outcome with
      | .ok => writeHeadersLoop wenv st rest (acc ++ [w])
      | o => (acc ++ [w], o)

/-- Result of `MFBlock.write`: the per-instance outputs, the state after
repeating-header synthesis and the outcome. -/
structure BlockWrite where
  outs : List WOut
  state : BlockState
  outcome : Outcome
deriving Repr

/-- `MFBlock.write` (source lines 551-571): skip empty blocks other than
`options`/`exchanges`; for a repeating block synthesize missing headers and
emit once per header; otherwise emit the first header once. -/
def MFBlock.write (wenv : WriteEnv) (st : BlockState) : BlockWrite :=
  match MFBlock.is_empty_check st.datasets with
  | .error e => ⟨[], st, .raised e⟩
  | .ok isEmpty =>
    if isEmpty && strToLower st.struct.name != "exchanges"
        && strToLower st.struct.name != "options" then
      ⟨[], st, .ok⟩
    else
      if st.struct.repeating then
        match findRepeatingGo st.datasets with
        | .error e => ⟨[], st, .raised e⟩
        | .ok reps =>
          match reps.foldlM (fun acc d => MFBlock.add_missing_block_headers acc d) st with
          | .error e => ⟨[], st, .raised e⟩
          | .ok st' =>
            if reps.length > 0 then
              let r := writeHeadersLoop wenv st' st'.block_headers []
              ⟨r.1, st', r.2⟩
            else
              match st'.block_headers.head? with
              | none => ⟨[], st', .raised .indexError⟩
              | some h0 =>
                let w := MFBlock.write_block wenv st' h0
                ⟨[w], st', w.outcome⟩
      else
        match st.block_headers.head? with
        | none => ⟨[], st, .raised .indexError⟩
        | some h0 =>
          let w := MFBlock.write_block wenv st h0
          ⟨[w], st, w.outcome⟩

/-- The state of an `MFPackage` instance, reduced to what the modelled
paths read: the registered blocks, the package schema (block schemas plus
the `read_as_arrays` flag), the auxiliary data visible to contained
blocks, the collected pre-block comments and the last validation error. -/
structure PackageState where
  package_type : String
  filename : String
  path : List String
  blocks : List (String × BlockState)
  structure_blocks : List (String × BlockStructure)
  read_as_arrays : Bool
  aux_data : Option (List String)
  aux_struct : DataStructure
  pkg_hdr_comments : List Line
  last_error : Option String
deriving Repr, DecidableEq

/-- The container-package view that `MFBlock.load` receives. -/
def PackageState.cp (p : PackageState) : ContainerPkg :=
  ⟨p.read_as_arrays, p.aux_data, p.aux_struct⟩

/-- The block loop of `MFPackage.is_valid` (source lines 863-871).  Both
warning branches format `block.block_header.name`, but `MFBlock` has no
attribute `block_header` (only `block_headers`), so reaching either branch
raises `AttributeError` before `last_error` is assigned or `False` is
returned; the second branch additionally negates the truthy bound method
`block.is_valid` (no call parentheses) and can never fire. -/
def MFPackage.is_valid_go (store : Store) : List (String × BlockState) → Except PyErr Bool
  | [] => .ok true
  | (_, b) :: rest =>
      if b.struct.number_non_optional_data > 0 && !b.enabled
          && MFBlock.is_allowed store b then
        .error (.attributeError "MFBlock object has no attribute block_header")
      else if b.enabled && !boundMethodTruthy then
        .error (.attributeError "MFBlock object has no attribute block_header")
      else
        MFPackage.is_valid_go store rest

/-- `MFPackage.is_valid` (source lines 861-873). -/
def MFPackage.is_valid (store : Store) (p : PackageState) : Except PyErr Bool :=
  MFPackage.is_valid_go store p.blocks

/-- The argument/comment split of `MFPackage._get_block_header_info`
(source lines 813-822): once a token starts with a comment marker, it and
everything after it joins the header comment. -/
def headerArgsGo : List String → Bool → String → List String → (List String × String)
  | [], _, ctext, vars => (vars.reverse, ctext)
  | t :: rest, inComment, ctext, vars =>
      let isC :=
        match t.toList with
        | c :: _ => isCommentChar c
        | [] => false
      let inC := inComment || isC
      if inC then headerArgsGo rest inC (ctext ++ " " ++ t) vars
      else headerArgsGo rest inC ctext (t :: vars)

/-- `MFPackage._get_block_header_info` (source lines 800-823): the second
token is the block name; later tokens are header arguments until a comment
marker; fewer than two tokens raise `MFFileParseException`. -/
def MFPackage.get_block_header_info (l : Line) : Except PyErr MFBlockHeader :=
  match l with
  | [] => .error (.mfFileParseException "ERROR: Block header does not contain a name")
  | [_] => .error (.mfFileParseException "ERROR: Block header does not contain a name")
  | _ :: nm :: rest =>
      let r := headerArgsGo rest false "" []
      .ok ⟨nm, r.1, r.2, []⟩

/-- `MFPackage._store_comment` (source lines 987-992): comments go to the
package header store before the first recognized block, afterwards to the
running post-block comment. -/
def storePending (pkgHdr : List Line) (pending : List Line) (l : Line) (foundFirst : Bool) :
    List Line × List Line :=
  if foundFirst then (pkgHdr, pending ++ [l]) else (pkgHdr ++ [l], pending)

/-- Modelled from the spec: rendering of accumulated post-block comment
lines into the text of an `MFComment` store entry. -/
def renderPostComment (ls : List Line) : String :=
  String.join (ls.map (fun l => joinLine l ++ "\n"))

/-- Write the pending post-block comments into the block that owns the
current post-comment store entry (the aliasing of
`self.post_block_comments` in the source: the object assigned at lines
935-936 keeps collecting the comments stored after the block loads). -/
def flushPost (p : PackageState) (owner : Option String) (pending : List Line) :
    PackageState :=
  match owner with
  | none => p
  | some k =>
      { p with blocks := p.blocks.map (fun q =>
          if q.1 == k then (q.1, { q.2 with blk_post_comment := renderPostComment pending })
          else q) }

/-- The probe loop resolving duplicate block names (source lines 899-906),
fueled by the number of registered blocks: keep proposing
`<name>-<n>` aliases while the probed block exists but is not allowed. -/
def resolve_probe (store : Store) (blocks : List (String × BlockState)) (nameL : String) :
    Nat → String → Nat → String
  | 0, key, _ => key
  | fuel + 1, key, num =>
      match assocGet blocks key with
      | none => key
      | some b =>
          if MFBlock.is_allowed store b then key
          else resolve_probe store blocks nameL fuel (nameL ++ "-" ++ toString num) (num + 1)

/-- The unknown-block swallow loop (source lines 914-919): store every line
as a comment until a line whose first token is short (length at most two)
or starts with END; at end-of-file one final empty line is stored. -/
def swallow_block_go : List Line → List Line → List Line →
    Bool → (List Line × List Line × List Line)
  | [], pkgHdr, pending, ff =>
      let r := storePending pkgHdr pending [] ff
      (r.1, r.2, [])
  | l :: rest, pkgHdr, pending, ff =>
      let r := storePending pkgHdr pending l ff
      if !l.isEmpty && (match l.head? with
          | some t => t.length ≤ 2 || strToUpper (t.take 3) == "END"
          | none => false) then
        (r.1, r.2, rest)
      else swallow_block_go rest r.1 r.2 ff

/-- Result of `MFPackage._load_blocks`. -/
structure PkgLoadOut where
  pkg : PackageState
  warnings : List String
  events : List Event
  outcome : Outcome
deriving Repr

/-- The file-scan loop of `MFPackage._load_blocks` (source lines 884-945),
fueled by the number of lines (every iteration reads at least one):
comments are buffered, `BEGIN` lines are resolved to a registered block and
dispatched to `MFBlock.load`, unknown blocks are swallowed as comments, a
second instance of a non-repeating block is skipped with a warning, and
stray text is kept as comment. -/
def load_blocks_go (env : LoadEnv) (store : Store) (maxBlocks : Nat) :
    Nat → PackageState → List Line → Bool → Option String → List Line → Nat →
    List String → List Event → PkgLoadOut
  | gas, p, fd, foundFirst, owner, pending, blocksRead, warns, evs =>
    match fd with
    | [] => ⟨flushPost p owner pending, warns, evs, .ok⟩
    | l :: rest =>
      match gas with
      | 0 => ⟨flushPost p owner pending, warns, evs, .hang⟩
      | gas + 1 =>
      if lineIsComment l true then
        let r := storePending p.pkg_hdr_comments pending l foundFirst
        load_blocks_go env store maxBlocks gas { p with pkg_hdr_comments := r.1 } rest
          foundFirst owner r.2 blocksRead warns evs
      else if isBeginLine l then
        match MFPackage.get_block_header_info l with
        | .error (.mfFileParseException _) =>
            ⟨flushPost p owner pending, warns, evs,
              .raised (.mfFileParseException "Invalid block header")⟩
        | .error e => ⟨flushPost p owner pending, warns, evs, .raised e⟩
        | .ok info =>
          let nameL := strToLower info.name
          let block_key :=
            if (assocGet p.blocks (nameL ++ "-1")).isSome then
              resolve_probe store p.blocks nameL (p.blocks.length + 2) (nameL ++ "-1") 1
            else nameL
          match assocGet p.blocks block_key with
          | none =>
              let w := "WARNING: Block is not a valid block name for this file type"
              let r := storePending p.pkg_hdr_comments pending l foundFirst
              let sw := swallow_block_go rest r.1 r.2 foundFirst
              load_blocks_go env store maxBlocks gas
                { p with pkg_hdr_comments := sw.1 } sw.2.2 foundFirst owner sw.2.1
                blocksRead (warns ++ [w]) evs
          | some blk =>
            let p1 := flushPost p owner pending
            match (if blk.loaded then
                     match assocGet p1.structure_blocks nameL with
                     | none => Except.error PyErr.keyError
                     | some bs => Except.ok (!bs.repeating)
                   else Except.ok false) with
            | .error e => ⟨p1, warns, evs, .raised e⟩
            | .ok skip =>
              if skip then
                let w := "WARNING: Block has multiple entries and is not intended to be a repeating block"
                load_blocks_go env store maxBlocks gas p1 rest true none []
                  blocksRead (warns ++ [w]) evs
              else
                let r := MFBlock.load env p1.cp blk info rest
                let p2 := { p1 with blocks := assocSet p1.blocks block_key r.state }
                let warns' := warns ++ r.warnings
                let evs' := evs ++ r.events
                match r.outcome with
                | .raised e => ⟨p2, warns', evs', .raised e⟩
                | .hang => ⟨p2, warns', evs', .hang⟩
                | .ok =>
                  if blocksRead + 1 ≥ maxBlocks then
                    ⟨flushPost p2 (some block_key) [], warns', evs', .ok⟩
                  else
                    load_blocks_go env store maxBlocks gas p2 r.fd true
                      (some block_key) [] (blocksRead + 1) warns' evs'
      else
        let rawl := joinLine l
        if !(l.isEmpty || (rawl.length > 2 && strToUpper (rawl.take 3) == "END")) then
          let r := storePending p.pkg_hdr_comments pending l foundFirst
          load_blocks_go env store maxBlocks gas { p with pkg_hdr_comments := r.1 } rest
            foundFirst owner r.2 blocksRead warns evs
        else
          load_blocks_go env store maxBlocks gas p rest foundFirst owner pending
            blocksRead warns evs

/-- `MFPackage._load_blocks` (source lines 875-945): fresh comment store
entries, then the scan loop. -/
def MFPackage.load_blocks (env : LoadEnv) (store : Store) (p : PackageState)
    (fd : List Line) (maxBlocks : Nat) : PkgLoadOut :=
  load_blocks_go env store maxBlocks (fd.length + 1)
    { p with pkg_hdr_comments := [] } fd false none [] 0 [] []

/-- Result of `MFPackage.load`. -/
structure PkgFileLoadOut where
  pkg : PackageState
  warnings : List String
  events : List Event
  outcome : Outcome
  fileClosed : Bool
  valid : Option Bool
deriving Repr

/-- `sys.maxsize`, the default block bound of `MFPackage._load_blocks`. -/
def sysMaxsize : Nat := 9223372036854775807

/-- `MFPackage.load` (source lines 838-859): open the package file (a
missing file reaches the handler that reads the unimported module `errno`
and raises `NameError`), run `_load_blocks`, and close the file; only
`ReadAsArraysException` is caught, closing the file before re-raising it —
any other exception propagates with the file left open.  On success the
validity check runs after the file is closed. -/
def MFPackage.load (env : LoadEnv) (store : Store) (p : PackageState) : PkgFileLoadOut :=
  match env.files p.filename with
  | none =>
      { pkg := p, warnings := [], events := [], outcome := .raised .nameError,
        fileClosed := false, valid := none }
  | some fd =>
    let r := MFPackage.load_blocks env store p fd sysMaxsize
    match r.outcome with
    | .raised (.readAsArraysException m) =>
        { pkg := r.pkg, warnings := r.warnings, events := r.events,
          outcome := .raised (.readAsArraysException m), fileClosed := true, valid := none }
    | .raised e =>
        { pkg := r.pkg, warnings := r.warnings, events := r.events,
          outcome := .raised e, fileClosed := false, valid := none }
    | .hang =>
        { pkg := r.pkg, warnings := r.warnings, events := r.events, outcome := .hang,
          fileClosed := false, valid := none }
    | .ok =>
        match MFPackage.is_valid store r.pkg with
        | .error e =>
            { pkg := r.pkg, warnings := r.warnings, events := r.events,
              outcome := .raised e, fileClosed := true, valid := none }
        | .ok b =>
            { pkg := r.pkg, warnings := r.warnings, events := r.events, outcome := .ok,
              fileClosed := true, valid := some b }

/-- The block loop of `MFPackage._write_blocks` (source lines 1007-1012),
collecting the text written to the package file. -/
def writeBlocksGo (wenv : WriteEnv) : List (String × BlockState) → List String →
    (List String × Outcome)
  | [], acc => (acc, .ok)
  | (_, b) :: rest, acc =>
      let w := MFBlock.write wenv b
      let chunk := w.outs.map (fun o => String.join o.parent)
      match w.outcome with
      | .ok => writeBlocksGo wenv rest (acc ++ chunk)
      | o => (acc ++ chunk, o)

/-- `MFPackage._write_blocks` (source lines 994-1012): refuse to write
unless `is_valid()` holds (the refusal branch raises
`MFFileWriteException` naming the first invalid block and the file, but
`is_valid` itself raises `AttributeError` before it can return `False`);
then the package header comments and every block in registration order. -/
def MFPackage.write_blocks (wenv : WriteEnv) (store : Store) (p : PackageState) :
    (List String × Outcome) :=
  match MFPackage.is_valid store p with
  | .error e => ([], .raised e)
  | .ok false =>
      ([], .raised (.mfFileWriteException
        "Unable to write out model file due to the following error"))
  | .ok true =>
      let hdr := p.pkg_hdr_comments.map (fun l => joinLine l ++ "\n")
      let r := writeBlocksGo wenv p.blocks []
      (hdr ++ r.1, r.2)

/-- `MFPackage.write` (source lines 947-960): folder creation and the file
handle are I/O outside the model; the emitted text is that of
`_write_blocks`. -/
def MFPackage.write (wenv : WriteEnv) (store : Store) (p : PackageState) :
    (List String × Outcome) :=
  MFPackage.write_blocks wenv store p

/-! ## Helper lemmas -/

theorem datasetsValidCheck_ok_none (l : List (String × Option DataItem))
    (h : ∀ p ∈ l, ∃ d, p.2 = some d ∧ d.enabled = true) :
    datasetsValidCheck l = .ok none := by
  induction l with
  | nil => rfl
  | cons p rest ih =>
    obtain ⟨d, hp, hen⟩ := h p (List.mem_cons_self p rest)
    obtain ⟨s, od⟩ := p
    simp only at hp
    subst hp
    simp [datasetsValidCheck, hen, boundMethodTruthy,
      ih (fun q hq => h q (List.mem_cons_of_mem _ hq))]

theorem datasetsValidCheck_ne_true (l : List (String × Option DataItem)) :
    datasetsValidCheck l ≠ .ok (some true) := by
  induction l with
  | nil => simp [datasetsValidCheck]
  | cons p rest ih =>
    obtain ⟨s, od⟩ := p
    cases od with
    | none => simp [datasetsValidCheck]
    | some d =>
      unfold datasetsValidCheck
      split
      · simp
      · split
        · simp
        · exact ih

theorem headerItemsValidCheck_ok_none (l : List (Option DataItem))
    (h : ∀ od ∈ l, ∃ d, od = some d ∧ d.enabled = true ∧ d.validFlag = true) :
    headerItemsValidCheck l = .ok none := by
  induction l with
  | nil => rfl
  | cons od rest ih =>
    obtain ⟨d, hod, hen, hv⟩ := h od (List.mem_cons_self od rest)
    subst hod
    simp [headerItemsValidCheck, hen, hv,
      ih (fun q hq => h q (List.mem_cons_of_mem _ hq))]

theorem headerItemsValidCheck_ne_true (l : List (Option DataItem)) :
    headerItemsValidCheck l ≠ .ok (some true) := by
  induction l with
  | nil => simp [headerItemsValidCheck]
  | cons od rest ih =>
    cases od with
    | none => simp [headerItemsValidCheck]
    | some d =>
      unfold headerItemsValidCheck
      split
      · simp
      · split
        · simp
        · exact ih

theorem headersValidCheck_ok_none (hs : List MFBlockHeader)
    (h : ∀ hd ∈ hs, headerItemsValidCheck hd.data_items = .ok none) :
    headersValidCheck hs = .ok none := by
  induction hs with
  | nil => rfl
  | cons hd rest ih =>
    unfold headersValidCheck
    rw [h hd (List.mem_cons_self hd rest)]
    exact ih (fun q hq => h q (List.mem_cons_of_mem _ hq))

theorem headersValidCheck_ne_true (hs : List MFBlockHeader) :
    headersValidCheck hs ≠ .ok (some true) := by
  induction hs with
  | nil => simp [headersValidCheck]
  | cons hd rest ih =>
    unfold headersValidCheck
    cases hcheck : headerItemsValidCheck hd.data_items with
    | error e => simp [Bind.bind, Except.bind]
    | ok ob =>
      cases ob with
      | none => simpa [Bind.bind, Except.bind] using ih
      | some b =>
        cases b with
        | false => simp [Bind.bind, Except.bind, pure, Except.pure]
        | true => exact absurd hcheck (headerItemsValidCheck_ne_true _)

theorem block_is_valid_ne_true (st : BlockState) :
    MFBlock.is_valid st ≠ .ok (some true) := by
  unfold MFBlock.is_valid
  cases hds : datasetsValidCheck st.datasets with
  | error e => simp [Bind.bind, Except.bind]
  | ok ob =>
    cases ob with
    | none => simpa [Bind.bind, Except.bind] using headersValidCheck_ne_true st.block_headers
    | some b =>
      cases b with
      | false => simp [Bind.bind, Except.bind, pure, Except.pure]
      | true => exact absurd hds (datasetsValidCheck_ne_true _)

/-! ## Claim C10 -/

/-- C10: for every block in which every dataset and every header data item
is enabled and valid, `MFBlock.is_valid()` returns Python `None` (modelled
`Except.ok none`), and for no block state at all does it return `True`:
the source has no `return True`, so a caller testing the result for
truthiness treats every block as invalid. -/
theorem c10_is_valid_never_true (st : BlockState)
    (hds : ∀ p ∈ st.datasets, ∃ d, p.2 = some d ∧ d.enabled = true ∧ d.validFlag = true)
    (hhs : ∀ hd ∈ st.block_headers, ∀ od ∈ hd.data_items,
      ∃ d, od = some d ∧ d.enabled = true ∧ d.validFlag = true) :
    MFBlock.is_valid st = .ok none ∧
    ∀ st2 : BlockState, MFBlock.is_valid st2 ≠ .ok (some true) := by
  constructor
  · unfold MFBlock.is_valid
    rw [datasetsValidCheck_ok_none st.datasets
      (fun p hp => by
        obtain ⟨d, h1, h2, _⟩ := hds p hp
        exact ⟨d, h1, h2⟩)]
    simpa [Bind.bind, Except.bind] using
      headersValidCheck_ok_none st.block_headers
        (fun hd hhd => headerItemsValidCheck_ok_none hd.data_items (hhs hd hhd))
  · exact block_is_valid_ne_true

def c10Dis : DataItemStructure := ⟨"nper", "integer", .tInt⟩

def c10Struct : DataStructure :=
  { name := "nper", type := "integer", data_item_structures := [c10Dis], optional := false,
    keywords := [["nper"]], record_size := 1, datatype := some .scalar, file_data := false,
    keywordAttr := "nper", first_non_keyword_index := none }

def c10Item : DataItem := ⟨c10Struct, some (.vint 3), true, true, true, []⟩

def c10BlockStructure : BlockStructure :=
  { name := "dimensions", block_header_structure := [], data_structures := [("nper", c10Struct)],
    repeating := false, variable_dependant_path := none,
    variable_value_when_active := ("", "") }

def c10St : BlockState :=
  { struct := c10BlockStructure, path := ["sim", "pkg", "dimensions"],
    block_headers := [⟨"dimensions", [], "", [some c10Item]⟩],
    datasets := [("nper", some c10Item)], datasets_keyword := [(["nper"], c10Struct)],
    enabled := true, loaded := true, external_file_name := none,
    blk_trailing_comment := [], blk_post_comment := "\n" }

theorem c10_witness :
    MFBlock.is_valid c10St = .ok none ∧
    ∀ st2 : BlockState, MFBlock.is_valid st2 ≠ .ok (some true) :=
  c10_is_valid_never_true c10St
    (by intro p hp; simp [c10St] at hp; subst hp; exact ⟨c10Item, rfl, rfl, rfl⟩)
    (by
      intro hd hhd od hod
      simp [c10St] at hhd
      subst hhd
      simp at hod
      subst hod
      exact ⟨c10Item, rfl, rfl, rfl⟩)

/-! ## Claim C8 -/

def c8Struct : DataStructure :=
  { name := "mystery", type := "mystery", data_item_structures := [], optional := false,
    keywords := [], record_size := 0, datatype := none, file_data := false,
    keywordAttr := "", first_non_keyword_index := none }

/-- C8 counterexample: for a schema node whose declared data kind is not
one of the supported dataset kinds, `data_factory` does not fail (the
`if/elif` chain of the source has no `else` and raises nothing); it falls
off the end and returns Python `None`.  The claim that it "fails fatally
with a programming-schema error rather than returning a value" is false:
the call returns normally. -/
theorem c8_counterexample : data_factory c8Struct true none = none := rfl

/-- C8 amended: for every schema node whose declared data kind is not one
of the supported kinds, `data_factory` silently returns `None` (no dataset
holder and no exception). -/
theorem c8_factory_returns_none (struct : DataStructure) (e : Bool) (d : Option Value)
    (h : struct.datatype = none) : data_factory struct e d = none := by
  unfold data_factory
  rw [h]

theorem c8_witness :
    c8Struct.datatype = none ∧ data_factory c8Struct false (some (.vint 7)) = none :=
  ⟨rfl, c8_factory_returns_none c8Struct false (some (.vint 7)) rfl⟩

/-! ## Claim C3 -/

def c3Dis : DataItemStructure := ⟨"label", "string", .tStr⟩

def c3Struct : DataStructure :=
  { name := "lbl", type := "string", data_item_structures := [c3Dis], optional := false,
    keywords := [], record_size := 1, datatype := some .scalar, file_data := false,
    keywordAttr := "", first_non_keyword_index := none }

def c3Item : DataItem := ⟨c3Struct, some (.vstr "alpha"), true, true, true, []⟩

def c3H1 : MFBlockHeader := ⟨"period", ["alpha"], "", [some c3Item]⟩

def c3H2 : MFBlockHeader := ⟨"period", ["beta"], "", []⟩

/-- C3 counterexample: two headers whose first argument is declared
non-numeric (`str`) and whose first raw tokens differ (`alpha` vs `beta`)
are reported as duplicates (`True`) by `is_same_header`, while the claim
says headers with non-numeric first arguments are never reported as
duplicates. -/
theorem c3_counterexample :
    c3H1.is_same_header c3H2 = .ok true ∧
    c3Dis.type_obj ≠ .tInt ∧ c3Dis.type_obj ≠ .tFloat ∧
    c3H1.variable_strings ≠ c3H2.variable_strings := by
  refine ⟨rfl, by decide, by decide, by decide⟩

/-- C3 amended: `is_same_header` reports a duplicate (`True`) whenever the
receiver has no data items or the argument header has no raw tokens, and
whenever the first argument's declared type is non-numeric; only when the
declared type is numeric (`int`/`float`) does it compare the two first raw
tokens, reporting a duplicate exactly when they are equal. -/
theorem c3_is_same_header_characterization
    (h1 h2 : MFBlockHeader) (d : DataItem) (dis : DataItemStructure)
    (a : String) (as : List String) (b : String) (bs : List String)
    (hd : h1.data_items.head? = some (some d))
    (hdis : d.struct.data_item_structures.head? = some dis)
    (hv1 : h1.variable_strings = a :: as)
    (hv2 : h2.variable_strings = b :: bs) :
    h1.is_same_header h2 =
      .ok (if dis.type_obj == .tInt || dis.type_obj == .tFloat then a == b else true) ∧
    ∀ g1 g2 : MFBlockHeader,
      g1.data_items = [] ∨ g2.variable_strings = [] → g1.is_same_header g2 = .ok true := by
  constructor
  · unfold MFBlockHeader.is_same_header
    have hne : h1.data_items ≠ [] := by
      intro hempty
      rw [hempty] at hd
      simp at hd
    rw [if_neg (by simp [hv2, List.length_eq_zero, hne])]
    rw [hd]
    simp only [hdis, hv1, hv2, List.head?_cons]
    split <;> simp
  · intro g1 g2 hg
    unfold MFBlockHeader.is_same_header
    rcases hg with hg | hg <;> rw [if_pos (by simp [hg])]

theorem c3_witness :
    c3H1.is_same_header c3H2 =
      .ok (if c3Dis.type_obj == .tInt || c3Dis.type_obj == .tFloat
           then "alpha" == "beta" else true) ∧
    ∀ g1 g2 : MFBlockHeader,
      g1.data_items = [] ∨ g2.variable_strings = [] → g1.is_same_header g2 = .ok true :=
  c3_is_same_header_characterization c3H1 c3H2 c3Item c3Dis
    "alpha" [] "beta" [] rfl rfl rfl rfl

/-! ## Claim C2 -/

/-- C2: for a repeating block whose schema header argument is an `integer`
record of size one held as a scalar, the header key written as the text
token `1` is stored internally as the integer `0` (the parsed value minus
one, source lines 335-338), and `write_header` emits it one-based again as
`1`, so the textual key round-trips unchanged. -/
theorem c2_one_based_roundtrip (hs : DataStructure) (name : String)
    (htype : hs.type = "integer") (hrs : hs.record_size = 1)
    (hdt : hs.datatype = some .scalar) :
    newDatasetHeaderItem hs (some ["1"]) =
      .ok (some ⟨hs, some (.vint 0), true, true, true, []⟩) ∧
    MFBlockHeader.write_header
        ⟨name, ["1"], "", [some ⟨hs, some (.vint 0), true, true, true, []⟩]⟩ =
      .ok ("BEGIN " ++ name ++ " 1" ++ "\n") := by
  constructor
  · unfold newDatasetHeaderItem
    rw [htype, hrs]
    simp only [data_factory, hdt]
    rfl
  · unfold MFBlockHeader.write_header
    dsimp only
    rw [htype]
    simp [scalarFileEntry, rstrip]
    rfl

def c2Hs : DataStructure :=
  { name := "iper", type := "integer", data_item_structures := [⟨"iper", "integer", .tInt⟩],
    optional := false, keywords := [], record_size := 1, datatype := some .scalar,
    file_data := false, keywordAttr := "", first_non_keyword_index := none }

theorem c2_witness :
    newDatasetHeaderItem c2Hs (some ["1"]) =
      .ok (some ⟨c2Hs, some (.vint 0), true, true, true, []⟩) ∧
    MFBlockHeader.write_header
        ⟨"period", ["1"], "", [some ⟨c2Hs, some (.vint 0), true, true, true, []⟩]⟩ =
      .ok ("BEGIN " ++ "period" ++ " 1" ++ "\n") :=
  c2_one_based_roundtrip c2Hs "period" rfl rfl rfl

/-! ## Claim C4 -/

/-- C4: when the supplied header carries fewer raw tokens than the
schema's non-optional block-header variable count, or the block was
already loaded and the duplicate scan reports an existing duplicate
header (per `is_same_header`), `MFBlock.load` returns after only printing
a warning: the block state and the file position are exactly as before the
call, no loader events fire, and the failure is non-fatal. -/
theorem c4_load_guard_nonfatal (env : LoadEnv) (cp : ContainerPkg) (st : BlockState)
    (bh : MFBlockHeader) (fd : List Line)
    (h : bh.variable_strings.length < st.struct.number_non_optional_block_header_data ∨
         (st.loaded = true ∧ check_duplicate st.block_headers bh = .ok true)) :
    (MFBlock.load env cp st bh fd).state = st ∧
    (MFBlock.load env cp st bh fd).fd = fd ∧
    (MFBlock.load env cp st bh fd).outcome = .ok ∧
    (MFBlock.load env cp st bh fd).warnings.length = 1 ∧
    (MFBlock.load env cp st bh fd).events = [] := by
  rcases h with h1 | ⟨h2, h3⟩
  · unfold MFBlock.load
    simp [h1]
  · unfold MFBlock.load
    by_cases h1 : bh.variable_strings.length < st.struct.number_non_optional_block_header_data
    · simp [h1]
    · simp [h1, h2, h3]

def c4Hdr : DataStructure :=
  { name := "iper", type := "integer", data_item_structures := [⟨"iper", "integer", .tInt⟩],
    optional := false, keywords := [], record_size := 1, datatype := some .scalar,
    file_data := false, keywordAttr := "", first_non_keyword_index := none }

def c4BlockStructure : BlockStructure :=
  { name := "period", block_header_structure := [c4Hdr], data_structures := [],
    repeating := true, variable_dependant_path := none,
    variable_value_when_active := ("", "") }

def c4St : BlockState :=
  { struct := c4BlockStructure, path := ["m", "pkg", "period"],
    block_headers := [⟨"period", [], "", []⟩], datasets := [], datasets_keyword := [],
    enabled := false, loaded := false, external_file_name := none,
    blk_trailing_comment := [], blk_post_comment := "\n" }

def c4Env : LoadEnv :=
  ⟨fun _ _ _ => ⟨false, none, 0, none, none⟩, fun _ => none, fun _ => false⟩

def c4Cp : ContainerPkg := ⟨false, none, c4Hdr⟩

def c4Bh : MFBlockHeader := ⟨"period", [], "", []⟩

theorem c4_witness :
    (c4Bh.variable_strings.length < c4St.struct.number_non_optional_block_header_data ∨
      (c4St.loaded = true ∧ check_duplicate c4St.block_headers c4Bh = .ok true)) ∧
    ((MFBlock.load c4Env c4Cp c4St c4Bh [["END", "period"]]).state = c4St ∧
     (MFBlock.load c4Env c4Cp c4St c4Bh [["END", "period"]]).fd = [["END", "period"]] ∧
     (MFBlock.load c4Env c4Cp c4St c4Bh [["END", "period"]]).outcome = .ok ∧
     (MFBlock.load c4Env c4Cp c4St c4Bh [["END", "period"]]).warnings.length = 1 ∧
     (MFBlock.load c4Env c4Cp c4St c4Bh [["END", "period"]]).events = []) :=
  ⟨Or.inl (by decide),
   c4_load_guard_nonfatal c4Env c4Cp c4St c4Bh [["END", "period"]] (Or.inl (by decide))⟩

/-! ## Claim C1 -/

theorem is_valid_go_required_raises (store : Store) (l : List (String × BlockState))
    (h : ∃ kb ∈ l, kb.2.struct.number_non_optional_data > 0 ∧ kb.2.enabled = false ∧
         MFBlock.is_allowed store kb.2 = true) :
    MFPackage.is_valid_go store l =
      .error (.attributeError "MFBlock object has no attribute block_header") := by
  induction l with
  | nil => simp at h
  | cons kb rest ih =>
    obtain ⟨key, b⟩ := kb
    by_cases hc : (b.struct.number_non_optional_data > 0 ∧ b.enabled = false ∧
        MFBlock.is_allowed store b = true)
    · obtain ⟨hc1, hc2, hc3⟩ := hc
      unfold MFPackage.is_valid_go
      simp [hc1, hc2, hc3]
    · obtain ⟨x, hx, hcond⟩ := h
      rcases List.mem_cons.mp hx with rfl | hxr
      · exact absurd hcond hc
      · unfold MFPackage.is_valid_go
        split
        · rename_i hcondTrue
          exfalso
          apply hc
          simp only [Bool.and_eq_true, decide_eq_true_eq, Bool.not_eq_true'] at hcondTrue
          exact ⟨hcondTrue.1.1, hcondTrue.1.2, hcondTrue.2⟩
        · split
          · rename_i hb2
            exfalso
            simp [boundMethodTruthy] at hb2
          · exact ih ⟨x, hxr, hcond⟩

theorem is_valid_go_ne_false (store : Store) (l : List (String × BlockState)) :
    MFPackage.is_valid_go store l ≠ .ok false := by
  induction l with
  | nil => simp [MFPackage.is_valid_go]
  | cons kb rest ih =>
    unfold MFPackage.is_valid_go
    split
    · simp
    · split
      · simp
      · exact ih

/-- C1: for every package in which some block has at least one
non-optional dataset, is not enabled, and is allowed by its
conditional-activation rule, `MFPackage.is_valid()` does not return
`False` as the claim states: formatting its warning accesses
`block.block_header`, an attribute `MFBlock` does not have (the attribute
is `block_headers`), so `is_valid` raises `AttributeError`.  Consequently
`_write_blocks` aborts with that `AttributeError` before emitting anything
— not with the `MFFileWriteException` naming the first invalid block and
the file — and `is_valid` can in fact never return `False` at all, making
the write-refusal branch dead code. -/
theorem c1_required_block_invalid_raises (store : Store) (p : PackageState)
    (h : ∃ kb ∈ p.blocks, kb.2.struct.number_non_optional_data > 0 ∧ kb.2.enabled = false ∧
         MFBlock.is_allowed store kb.2 = true) :
    MFPackage.is_valid store p =
      .error (.attributeError "MFBlock object has no attribute block_header") ∧
    (∀ wenv : WriteEnv, MFPackage.write_blocks wenv store p =
      ([], .raised (.attributeError "MFBlock object has no attribute block_header"))) ∧
    (∀ (store2 : Store) (p2 : PackageState), MFPackage.is_valid store2 p2 ≠ .ok false) := by
  have hiv := is_valid_go_required_raises store p.blocks h
  refine ⟨hiv, ?_, ?_⟩
  · intro wenv
    unfold MFPackage.write_blocks
    unfold MFPackage.is_valid at hiv ⊢
    rw [hiv]
  · intro store2 p2
    exact is_valid_go_ne_false store2 p2.blocks

def c1ReqStruct : DataStructure :=
  { name := "delr", type := "recarray", data_item_structures := [⟨"delr", "double", .tFloat⟩],
    optional := false, keywords := [["delr"]], record_size := 1, datatype := some .array,
    file_data := false, keywordAttr := "delr", first_non_keyword_index := none }

def c1BlockStructure : BlockStructure :=
  { name := "griddata", block_header_structure := [], data_structures := [("delr", c1ReqStruct)],
    repeating := false, variable_dependant_path := none,
    variable_value_when_active := ("", "") }

def c1Block : BlockState :=
  { struct := c1BlockStructure, path := ["m", "dis", "griddata"],
    block_headers := [⟨"griddata", [], "", []⟩],
    datasets := [("delr", some ⟨c1ReqStruct, none, false, true, false, []⟩)],
    datasets_keyword := [(["delr"], c1ReqStruct)], enabled := false, loaded := false,
    external_file_name := none, blk_trailing_comment := [], blk_post_comment := "\n" }

def c1Pkg : PackageState :=
  { package_type := "dis", filename := "model.dis", path := ["m", "dis"],
    blocks := [("griddata", c1Block)], structure_blocks := [("griddata", c1BlockStructure)],
    read_as_arrays := false, aux_data := none, aux_struct := c1ReqStruct,
    pkg_hdr_comments := [], last_error := none }

theorem c1_witness :
    (∃ kb ∈ c1Pkg.blocks, kb.2.struct.number_non_optional_data > 0 ∧ kb.2.enabled = false ∧
      MFBlock.is_allowed [] kb.2 = true) ∧
    (MFPackage.is_valid [] c1Pkg =
      .error (.attributeError "MFBlock object has no attribute block_header") ∧
    (∀ wenv : WriteEnv, MFPackage.write_blocks wenv [] c1Pkg =
      ([], .raised (.attributeError "MFBlock object has no attribute block_header"))) ∧
    (∀ (store2 : Store) (p2 : PackageState), MFPackage.is_valid store2 p2 ≠ .ok false)) :=
  ⟨⟨("griddata", c1Block), by simp [c1Pkg], by decide, rfl, by decide⟩,
   c1_required_block_invalid_raises [] c1Pkg
     ⟨("griddata", c1Block), by simp [c1Pkg], by decide, rfl, by decide⟩⟩

/-! ## Claim C5 -/

def sMode : DataStructure :=
  { name := "mode", type := "string", data_item_structures := [⟨"mode", "string", .tStr⟩],
    optional := true, keywords := [["mode"]], record_size := 1, datatype := some .scalar,
    file_data := false, keywordAttr := "mode", first_non_keyword_index := none }

def sFlag : DataStructure :=
  { name := "flag", type := "keyword", data_item_structures := [⟨"flag", "keyword", .tStr⟩],
    optional := true, keywords := [["flag"]], record_size := 1,
    datatype := some .scalar_keyword, file_data := false, keywordAttr := "flag",
    first_non_keyword_index := none }

def sRdata : DataStructure :=
  { name := "rdata", type := "recarray", data_item_structures := [⟨"rdata", "double", .tFloat⟩],
    optional := true, keywords := [["rdata"]], record_size := 1, datatype := some .list,
    file_data := false, keywordAttr := "rdata", first_non_keyword_index := none }

def c5aBS : BlockStructure :=
  { name := "mysect", block_header_structure := [],
    data_structures := [("mode", sMode), ("flag", sFlag)], repeating := false,
    variable_dependant_path := none, variable_value_when_active := ("", "") }

def c5bBS : BlockStructure :=
  { name := "mysect", block_header_structure := [],
    data_structures := [("mode", sMode), ("rdata", sRdata)], repeating := false,
    variable_dependant_path := none, variable_value_when_active := ("", "") }

def c5aSt : BlockState :=
  { struct := c5aBS, path := ["m", "pkg", "mysect"],
    block_headers := [⟨"mysect", [], "", []⟩],
    datasets := [("mode", data_factory sMode true none), ("flag", data_factory sFlag true none)],
    datasets_keyword := [(["mode"], sMode), (["flag"], sFlag)],
    enabled := true, loaded := false, external_file_name := none,
    blk_trailing_comment := [], blk_post_comment := "\n" }

def c5bSt : BlockState :=
  { struct := c5bBS, path := ["m", "pkg", "mysect"],
    block_headers := [⟨"mysect", [], "", []⟩],
    datasets := [("mode", data_factory sMode true none), ("rdata", data_factory sRdata true none)],
    datasets_keyword := [(["mode"], sMode), (["rdata"], sRdata)],
    enabled := true, loaded := false, external_file_name := none,
    blk_trailing_comment := [], blk_post_comment := "\n" }

def c5Env : LoadEnv :=
  ⟨fun _ l _ => ⟨false, none, 0, some (.vstr (joinLine l)), none⟩,
   fun _ => none, fun _ => false⟩

def c5Cp : ContainerPkg := ⟨false, none, sMode⟩

def c5Bh : MFBlockHeader := ⟨"mysect", [], "", []⟩

theorem find_keyword_in_dict (l : Line) (kw : List (List String × DataStructure))
    (k : List String) (h : find_keyword l kw = some k) :
    keyInDict (.ktup k) kw = true := by
  induction l with
  | nil => simp [find_keyword] at h
  | cons t rest ih =>
    unfold find_keyword at h
    cases hf : kw.find? (fun p => keyMatchesAt p.1 (t :: rest)) with
    | some p =>
        rw [hf] at h
        have hp := List.mem_of_find?_eq_some hf
        cases h
        simp only [keyInDict, List.any_eq_true]
        exact ⟨p, hp, by simp⟩
    | none =>
        rw [hf] at h
        exact ih h

/-- C5 counterexample: in a multi-dataset block whose schema declares
exactly one recarray dataset, a body line matching no registered keyword
(`bogus`) is not retained as a block-trailing comment: the lone-recarray
fallback of `_find_data_by_keyword` feeds it to the recarray's loader as
data, so the trailing comments stay empty while the loader consumes the
line.  This falsifies the claim's "a line matching no registered keyword
is retained verbatim as a block-trailing comment". -/
theorem c5_counterexample :
    find_keyword ["bogus"] c5bSt.datasets_keyword = none ∧
    (MFBlock.load c5Env c5Cp c5bSt c5Bh
        [["mode", "fast"], ["bogus"], ["END", "mysect"]]).state.blk_trailing_comment = [] ∧
    (MFBlock.load c5Env c5Cp c5bSt c5Bh
        [["mode", "fast"], ["bogus"], ["END", "mysect"]]).events =
      [.dsLoad "mode" ["mode", "fast"], .dsLoad "rdata" ["bogus"]] ∧
    (MFBlock.load c5Env c5Cp c5bSt c5Bh
        [["mode", "fast"], ["bogus"], ["END", "mysect"]]).outcome = .ok := by
  refine ⟨rfl, rfl, rfl, rfl⟩

/-- C5 amended: during multi-dataset block loading, a line whose tokens
match a registered dataset keyword is consumed as typed data by that
dataset's loader and is not saved as a comment, while a line matching no
registered keyword — when it does not trip the read-as-arrays guard and
the block schema does not declare exactly one recarray dataset — resolves
to key `None`, triggers no loader, and is appended by `_save_comments` to
the block-trailing comments (which `load` stores and round-trips); when
the schema declares exactly one recarray dataset, the unmatched line is
instead fed to that recarray dataset as data.  The last conjunct shows the
retention end-to-end on a two-line body. -/
theorem c5_keyword_and_comment_retention
    (env : LoadEnv) (cp : ContainerPkg) (struct : BlockStructure) (path : List String)
    (kw : List (List String × DataStructure)) (datasets : List (String × Option DataItem))
    (events : List Event) (l : Line) (fd : List Line) (comments : List CommentEntry) :
    (∀ k dsStruct d c v,
      find_keyword l kw = some k →
      assocGet kw k = some dsStruct →
      assocGet datasets dsStruct.name = some (some d) →
      env.dsLoad dsStruct.name l fd = ⟨false, none, c, v, none⟩ →
      ((find_data_by_keyword env cp struct path kw datasets events l fd).key = .ktup k ∧
       (find_data_by_keyword env cp struct path kw datasets events l fd).raised = none ∧
       Event.dsLoad dsStruct.name l ∈
         (find_data_by_keyword env cp struct path kw datasets events l fd).events ∧
       save_comments kw l (.ktup k) comments = comments)) ∧
    (∀ t0,
      l.head? = some t0 →
      find_keyword l kw = none →
      ¬(strToLower t0 = "readasarrays" ∧
        strToLower (path.getLast?.getD "") = "options" ∧ cp.read_as_arrays = false) →
      struct.get_all_recarrays.length ≠ 1 →
      ((find_data_by_keyword env cp struct path kw datasets events l fd).key = .pynone ∧
       (find_data_by_keyword env cp struct path kw datasets events l fd).events = events ∧
       (find_data_by_keyword env cp struct path kw datasets events l fd).raised = none ∧
       save_comments kw l .pynone comments =
         (if !comments.isEmpty then comments ++ [CommentEntry.newline] else comments)
           ++ [CommentEntry.toks l])) ∧
    (MFBlock.load c5Env c5Cp c5aSt c5Bh
        [["mode", "fast"], ["bogus"], ["END", "mysect"]]).state.blk_trailing_comment =
      [CommentEntry.toks ["bogus"]] := by
  refine ⟨?_, ?_, rfl⟩
  · intro k dsStruct d c v hk hds hd hload
    have hdict := find_keyword_in_dict l kw k hk
    unfold find_data_by_keyword find_data_go
    simp only [Bool.not_true, Bool.false_eq_true, if_false, hk, hds, loadDatasetCall, hd,
      hload]
    unfold find_data_go
    simp only [Bool.not_false, if_true, find_data_dispatch, Option.getD_none]
    refine ⟨by simp, by simp, by simp, ?_⟩
    unfold save_comments
    rw [if_neg (by simp [hdict])]
  · intro t0 ht0 hnone hguard hrec
    unfold find_data_by_keyword find_data_go
    simp only [Bool.not_true, Bool.false_eq_true, if_false, hnone, ht0]
    have hg : (strToLower t0 == "readasarrays"
        && strToLower (path.getLast?.getD "") == "options"
        && cp.read_as_arrays == false) = false := by
      by_cases h1 : strToLower t0 = "readasarrays"
      · by_cases h2 : strToLower (path.getLast?.getD "") = "options"
        · by_cases h3 : cp.read_as_arrays = false
          · exact absurd ⟨h1, h2, h3⟩ hguard
          · simp [h3]
        · simp [h2]
      · simp [h1]
    rw [hg]
    simp only [Bool.false_eq_true, if_false, find_data_dispatch]
    have hrecb : (struct.get_all_recarrays.length != 1) = true := by
      simpa [bne_iff_ne] using hrec
    rw [hrecb]
    simp only [if_true]
    refine ⟨by simp, by simp, by simp, ?_⟩
    unfold save_comments
    rw [if_pos (by simp [keyInDict])]
    rw [if_pos (by simp [keyIsComment])]

theorem c5_witness :
    (find_data_by_keyword c5Env c5Cp c5aBS ["m", "pkg", "mysect"] c5aSt.datasets_keyword
        c5aSt.datasets [] ["bogus"] [["END", "mysect"]]).key = .pynone ∧
    (find_data_by_keyword c5Env c5Cp c5aBS ["m", "pkg", "mysect"] c5aSt.datasets_keyword
        c5aSt.datasets [] ["bogus"] [["END", "mysect"]]).events = [] ∧
    (find_data_by_keyword c5Env c5Cp c5aBS ["m", "pkg", "mysect"] c5aSt.datasets_keyword
        c5aSt.datasets [] ["bogus"] [["END", "mysect"]]).raised = none ∧
    save_comments c5aSt.datasets_keyword ["bogus"] .pynone [] =
      [CommentEntry.toks ["bogus"]] := by
  have h := (c5_keyword_and_comment_retention c5Env c5Cp c5aBS ["m", "pkg", "mysect"]
    c5aSt.datasets_keyword c5aSt.datasets [] ["bogus"] [["END", "mysect"]] []).2.1
    "bogus" rfl (by decide) (by decide) (by decide)
  simpa using h

/-! ## Claim C6 -/

def c6OptBS : BlockStructure :=
  { name := "options", block_header_structure := [],
    data_structures := [("mode", sMode), ("flag", sFlag)], repeating := false,
    variable_dependant_path := none, variable_value_when_active := ("", "") }

def c6OptSt : BlockState :=
  { struct := c6OptBS, path := ["m", "rch", "options"],
    block_headers := [⟨"options", [], "", []⟩],
    datasets := [("mode", data_factory sMode true none), ("flag", data_factory sFlag true none)],
    datasets_keyword := [(["mode"], sMode), (["flag"], sFlag)],
    enabled := true, loaded := false, external_file_name := none,
    blk_trailing_comment := [], blk_post_comment := "\n" }

def c6Pkg : PackageState :=
  { package_type := "rch", filename := "m.rch", path := ["m", "rch"],
    blocks := [("options", c6OptSt)], structure_blocks := [("options", c6OptBS)],
    read_as_arrays := false, aux_data := none, aux_struct := sMode,
    pkg_hdr_comments := [], last_error := none }

def c6Env : LoadEnv :=
  ⟨fun _ l _ => ⟨false, none, 0, some (.vstr (joinLine l)), none⟩,
   fun n => if n == "m.rch" then
       some [["BEGIN", "options"], ["readasarrays"], ["END", "options"]]
     else none,
   fun _ => false⟩

/-- C6 counterexample: a `readasarrays` token inside a multi-dataset block
that is *not* the `options` block of a package not declared read-as-arrays
does not fail at all: the block load completes normally and the token is
kept as a block-trailing comment, because the source additionally requires
`self.path[-1].lower() == 'options'` — a condition the claim omits. -/
theorem c6_counterexample :
    c5Cp.read_as_arrays = false ∧
    c5aSt.path.getLast? = some "mysect" ∧
    (MFBlock.load c5Env c5Cp c5aSt c5Bh [["readasarrays"], ["END", "mysect"]]).outcome
      = .ok ∧
    (MFBlock.load c5Env c5Cp c5aSt c5Bh
        [["readasarrays"], ["END", "mysect"]]).state.blk_trailing_comment =
      [CommentEntry.toks ["readasarrays"]] :=
  ⟨rfl, rfl, rfl, rfl⟩

/-- C6 amended: during multi-dataset loading of the *options* block,
a line whose first token is `readasarrays` (case-insensitively) that
matches no registered keyword, in a package whose schema does not declare
the read-as-arrays convention, makes `_find_data_by_keyword` raise
`ReadAsArraysException`; and whenever `_load_blocks` ends with a raised
`ReadAsArraysException`, `MFPackage.load` closes the originating file and
propagates the exception to the caller. -/
theorem c6_readasarrays_fatal_options
    (env : LoadEnv) (cp : ContainerPkg) (struct : BlockStructure) (path : List String)
    (kw : List (List String × DataStructure)) (datasets : List (String × Option DataItem))
    (events : List Event) (t0 : String) (l : Line) (fd : List Line)
    (hl : l.head? = some t0)
    (hn : find_keyword l kw = none)
    (ht : strToLower t0 = "readasarrays")
    (hp : strToLower (path.getLast?.getD "") = "options")
    (hr : cp.read_as_arrays = false) :
    (find_data_by_keyword env cp struct path kw datasets events l fd).raised =
      some (.readAsArraysException
        "ERROR: Attempting to read a ReadAsArrays package as a non-ReadAsArrays package") ∧
    (∀ (env2 : LoadEnv) (store : Store) (p : PackageState) (fd2 : List Line) (m : String),
      env2.files p.filename = some fd2 →
      (MFPackage.load_blocks env2 store p fd2 sysMaxsize).outcome =
        .raised (.readAsArraysException m) →
      (MFPackage.load env2 store p).outcome = .raised (.readAsArraysException m) ∧
      (MFPackage.load env2 store p).fileClosed = true) := by
  constructor
  · unfold find_data_by_keyword find_data_go
    simp only [Bool.not_true, Bool.false_eq_true, if_false, hn, hl, ht, hp, hr]
    rfl
  · intro env2 store p fd2 m hfiles houtcome
    unfold MFPackage.load
    rw [hfiles]
    simp only [houtcome]
    exact ⟨trivial, trivial⟩

theorem c6_witness :
    (find_data_by_keyword c6Env c6Pkg.cp c6OptBS ["m", "rch", "options"]
        c6OptSt.datasets_keyword c6OptSt.datasets [] ["readasarrays"]
        [["END", "options"]]).raised =
      some (.readAsArraysException
        "ERROR: Attempting to read a ReadAsArrays package as a non-ReadAsArrays package") ∧
    (MFPackage.load c6Env [] c6Pkg).outcome =
      .raised (.readAsArraysException
        "ERROR: Attempting to read a ReadAsArrays package as a non-ReadAsArrays package") ∧
    (MFPackage.load c6Env [] c6Pkg).fileClosed = true := by
  have h := c6_readasarrays_fatal_options c6Env c6Pkg.cp c6OptBS ["m", "rch", "options"]
    c6OptSt.datasets_keyword c6OptSt.datasets [] "readasarrays" ["readasarrays"]
    [["END", "options"]] rfl (by decide) (by decide) (by decide) rfl
  refine ⟨h.1, ?_⟩
  exact h.2 c6Env [] c6Pkg
    [["BEGIN", "options"], ["readasarrays"], ["END", "options"]]
    "ERROR: Attempting to read a ReadAsArrays package as a non-ReadAsArrays package"
    rfl rfl

/-! ## Claim C7 -/

def c7Hdr : DataStructure :=
  { name := "iper", type := "integer", data_item_structures := [⟨"iper", "integer", .tInt⟩],
    optional := false, keywords := [], record_size := 1, datatype := some .scalar,
    file_data := false, keywordAttr := "", first_non_keyword_index := none }

def c7BS : BlockStructure :=
  { name := "period", block_header_structure := [c7Hdr], data_structures := [("rdata", sRdata)],
    repeating := true, variable_dependant_path := none,
    variable_value_when_active := ("", "") }

def c7St0 : BlockState :=
  { struct := c7BS, path := ["m", "pkg", "period"],
    block_headers := [⟨"period", [], "", []⟩],
    datasets := [("rdata", data_factory sRdata true none)],
    datasets_keyword := [(["rdata"], sRdata)],
    enabled := true, loaded := false, external_file_name := none,
    blk_trailing_comment := [], blk_post_comment := "\n" }

def c7Bh1 : MFBlockHeader := ⟨"period", ["1"], "", []⟩

def c7Bh2 : MFBlockHeader := ⟨"period", ["01"], "", []⟩

/-- C7 counterexample: a repeating block accepts the headers `1` and `01`
as distinct instances (their raw first tokens differ, so `is_same_header`
does not flag a duplicate), yet both parse to the internal transient key
`0` — two entries of `block_headers` report the same transient key,
falsifying the uniqueness invariant.  The same run also shows that
`MFBlock.load` itself never consults `repeating`, so nothing at block
level enforces the single-entry half of the claim either. -/
theorem c7_counterexample :
    c7BS.repeating = true ∧
    ((MFBlock.load c5Env c5Cp
        (MFBlock.load c5Env c5Cp c7St0 c7Bh1 [["END", "period"]]).state
        c7Bh2 [["END", "period"]]).state.block_headers.map
      (fun h => (h.variable_strings, h.get_transient_key))) =
      [(["1"], .ok (some (.vint 0))), (["01"], .ok (some (.vint 0)))] :=
  ⟨rfl, rfl⟩

/-- The first raw token of every header that carries raw tokens. -/
def headTokens (hs : List MFBlockHeader) : List String :=
  hs.filterMap (fun h => h.variable_strings.head?)

theorem headTokens_updateLast (l : List MFBlockHeader)
    (f : MFBlockHeader → MFBlockHeader)
    (hf : ∀ x, (f x).variable_strings = x.variable_strings) :
    headTokens (updateLast l f) = headTokens l := by
  induction l with
  | nil => rfl
  | cons x rest ih =>
    cases rest with
    | nil => simp [updateLast, headTokens, List.filterMap_cons, hf]
    | cons y t =>
      have hstep : updateLast (x :: y :: t) f = x :: updateLast (y :: t) f := rfl
      rw [hstep]
      unfold headTokens at ih ⊢
      simp only [List.filterMap_cons, ih]

theorem headTokens_dropLast_sublist (l : List MFBlockHeader) :
    List.Sublist (headTokens l.dropLast) (headTokens l) :=
  List.Sublist.filterMap _ (List.dropLast_sublist l)

theorem check_duplicate_forall (hs : List MFBlockHeader) (bh : MFBlockHeader)
    (h : check_duplicate hs bh = .ok false) :
    ∀ x ∈ hs, x.is_same_header bh = .ok false := by
  induction hs with
  | nil => intro x hx; simp at hx
  | cons a rest ih =>
    intro x hx
    unfold check_duplicate at h
    cases hsame : a.is_same_header bh with
    | error e => rw [hsame] at h; simp at h
    | ok b =>
      rw [hsame] at h
      cases b with
      | true => simp at h
      | false =>
        rcases List.mem_cons.mp hx with rfl | hxr
        · exact hsame
        · exact ih h x hxr

theorem is_same_header_ok_false_ne (h bh : MFBlockHeader)
    (hfalse : h.is_same_header bh = .ok false)
    (a b : String) (ha : h.variable_strings.head? = some a)
    (hb : bh.variable_strings.head? = some b) : a ≠ b := by
  unfold MFBlockHeader.is_same_header at hfalse
  by_cases h0 : (h.data_items.length == 0 || bh.variable_strings.length == 0) = true
  · rw [if_pos h0] at hfalse; simp at hfalse
  · rw [if_neg h0] at hfalse
    cases hd : h.data_items.head? with
    | none => rw [hd] at hfalse; simp at hfalse
    | some od =>
      rw [hd] at hfalse
      cases od with
      | none => simp at hfalse
      | some d0 =>
        dsimp only at hfalse
        cases hdis : d0.struct.data_item_structures.head? with
        | none => rw [hdis] at hfalse; simp at hfalse
        | some dis0 =>
          rw [hdis] at hfalse
          dsimp only at hfalse
          by_cases hnum : (dis0.type_obj == TypeObj.tInt || dis0.type_obj == TypeObj.tFloat) = true
          · rw [if_pos hnum] at hfalse
            rw [ha, hb] at hfalse
            simp at hfalse
            exact hfalse
          · rw [if_neg hnum] at hfalse; simp at hfalse

theorem headTokens_append_new (hs : List MFBlockHeader) (bh : MFBlockHeader)
    (hnodup : (headTokens hs).Nodup)
    (hall : ∀ x ∈ hs, x.is_same_header bh = .ok false) :
    (headTokens (hs ++ [bh])).Nodup := by
  unfold headTokens
  rw [List.filterMap_append]
  cases hb : bh.variable_strings.head? with
  | none => simpa [List.filterMap_cons, hb] using hnodup
  | some b =>
    simp only [List.filterMap_cons, hb, List.filterMap_nil]
    rw [List.nodup_append]
    refine ⟨hnodup, by simp, ?_⟩
    intro a hamem hbmem
    simp only [List.mem_singleton] at hbmem
    obtain ⟨x, hx, hxa⟩ := List.mem_filterMap.mp hamem
    exact is_same_header_ok_false_ne x bh (hall x hx) a b hxa hb hbmem

theorem load_finish_headers (st : BlockState) (ds : List (String × Option DataItem))
    (cm : List CommentEntry) (fd : List Line) (w : List String) (e : List Event)
    (o : List String) :
    (MFBlock.load_finish st ds cm fd w e o).state.block_headers = st.block_headers := by
  unfold MFBlock.load_finish
  dsimp only
  split <;> rfl

theorem load_body2_headers (env : LoadEnv) (cp : ContainerPkg) (st : BlockState)
    (line : Line) (curFd fdMain : List Line) (isExt : Bool) (opened : List String) :
    (MFBlock.load_body2 env cp st line curFd fdMain isExt opened).state.block_headers
        = st.block_headers ∨
    (MFBlock.load_body2 env cp st line curFd fdMain isExt opened).state.block_headers
        = st.block_headers.dropLast := by
  unfold MFBlock.load_body2
  dsimp only
  split
  · repeat' split
    all_goals simp [load_finish_headers]
  · repeat' split
    all_goals simp [load_finish_headers]

theorem load_body_headers (env : LoadEnv) (cp : ContainerPkg) (st : BlockState)
    (line : Line) (fdMain : List Line) :
    (MFBlock.load_body env cp st line fdMain).state.block_headers = st.block_headers ∨
    (MFBlock.load_body env cp st line fdMain).state.block_headers
        = st.block_headers.dropLast := by
  unfold MFBlock.load_body
  repeat' split
  all_goals
    first
    | (exact load_body2_headers _ _ _ _ _ _ _ _)
    | (simp [load_finish_headers])

theorem new_dataset_header_tokens (st : BlockState) (ds : DataStructure)
    (iv : Option (List String)) (st2 : BlockState)
    (h : MFBlock.new_dataset_header st ds iv = .ok st2) :
    headTokens st2.block_headers = headTokens st.block_headers := by
  unfold MFBlock.new_dataset_header at h
  by_cases he : st.block_headers.isEmpty
  · rw [if_pos he] at h; simp at h
  · rw [if_neg he] at h
    cases hitem : newDatasetHeaderItem ds iv with
    | error e => rw [hitem] at h; simp at h
    | ok item =>
      rw [hitem] at h
      simp only [Except.ok.injEq] at h
      subst h
      exact headTokens_updateLast _ _ (fun x => rfl)

theorem load_after_guards_nodup (env : LoadEnv) (cp : ContainerPkg) (st1 : BlockState)
    (bh : MFBlockHeader) (fd : List Line)
    (hnodup : (headTokens st1.block_headers).Nodup) :
    (headTokens (MFBlock.load_after_guards env cp st1 bh fd).state.block_headers).Nodup := by
  unfold MFBlock.load_after_guards
  cases hh : (match st1.struct.block_header_structure.head? with
              | none => Except.ok st1
              | some ds => MFBlock.new_dataset_header st1 ds (some bh.variable_strings)) with
  | error e => simp only [hh]; exact hnodup
  | ok st2 =>
    have htok : headTokens st2.block_headers = headTokens st1.block_headers := by
      cases hbhs : st1.struct.block_header_structure.head? with
      | none =>
          rw [hbhs] at hh
          simp only [Except.ok.injEq] at hh
          subst hh
          rfl
      | some ds =>
          rw [hbhs] at hh
          exact new_dataset_header_tokens st1 ds _ st2 hh
    simp only [hh]
    split
    · simpa [htok] using hnodup
    · rcases load_body_headers env cp
        { st2 with datasets_keyword := registerAuxKeywords cp st2.datasets_keyword }
        (skip_initial_comments fd).line (skip_initial_comments fd).fd with hc | hc
      · rw [hc]
        simpa [htok] using hnodup
      · rw [hc]
        exact List.Nodup.sublist (headTokens_dropLast_sublist _)
          (by simpa [htok] using hnodup)

theorem load_preserves_headTokens_nodup (env : LoadEnv) (cp : ContainerPkg)
    (st : BlockState) (bh : MFBlockHeader) (fd : List Line)
    (h : (headTokens st.block_headers).Nodup) :
    (headTokens (MFBlock.load env cp st bh fd).state.block_headers).Nodup := by
  unfold MFBlock.load
  by_cases hg1 : bh.variable_strings.length < st.struct.number_non_optional_block_header_data
  · rw [if_pos hg1]; exact h
  · rw [if_neg hg1]
    by_cases hl : st.loaded = true
    · rw [hl]
      simp only [if_true]
      cases hdup : check_duplicate st.block_headers bh with
      | error e => simp only [hdup]; exact h
      | ok b =>
        cases b with
        | true => simp only [hdup]; exact h
        | false =>
          simp only [hdup]
          exact load_after_guards_nodup env cp _ bh fd
            (headTokens_append_new _ _ h (check_duplicate_forall _ _ hdup))
    · rw [Bool.not_eq_true] at hl
      rw [hl]
      simp only [Bool.false_eq_true, if_false, List.nil_append]
      exact load_after_guards_nodup env cp _ bh fd
        (by cases hb : bh.variable_strings.head? <;>
          simp [headTokens, List.filterMap_cons, hb])

/-- Apply a sequence of loads to a block. -/
def loadSeq (env : LoadEnv) (cp : ContainerPkg) :
    BlockState → List (MFBlockHeader × List Line) → BlockState
  | st, [] => st
  | st, (bh, fd) :: rest => loadSeq env cp (MFBlock.load env cp st bh fd).state rest

/-- C7 amended: after any sequence of `load` operations on a block whose
initial headers carry pairwise distinct first raw tokens (e.g. a fresh
block), no two entries of `block_headers` that carry raw tokens share the
same *first raw token*: the duplicate guard compares raw token text, not
parsed transient keys, so textual uniqueness is the invariant the code
maintains — distinct tokens such as `1` and `01` may still parse to the
same transient key. -/
theorem c7_token_uniqueness (env : LoadEnv) (cp : ContainerPkg) (st0 : BlockState)
    (ops : List (MFBlockHeader × List Line))
    (h0 : (headTokens st0.block_headers).Nodup) :
    (headTokens (loadSeq env cp st0 ops).block_headers).Nodup := by
  induction ops generalizing st0 with
  | nil => exact h0
  | cons op rest ih =>
    obtain ⟨bh, fd⟩ := op
    exact ih _ (load_preserves_headTokens_nodup env cp st0 bh fd h0)

theorem c7_witness :
    (headTokens
      (loadSeq c5Env c5Cp c7St0
        [(c7Bh1, [["END", "period"]]), (c7Bh2, [["END", "period"]])]).block_headers).Nodup :=
  c7_token_uniqueness c5Env c5Cp c7St0
    [(c7Bh1, [["END", "period"]]), (c7Bh2, [["END", "period"]])] (by decide)

/-! ## Claim C9 -/

def c9BS : BlockStructure :=
  { name := "myblk", block_header_structure := [], data_structures := [("mode", sMode)],
    repeating := false, variable_dependant_path := none,
    variable_value_when_active := ("", "") }

def c9St : BlockState :=
  { struct := c9BS, path := ["m", "pkg", "myblk"],
    block_headers := [⟨"myblk", [], "", []⟩],
    datasets := [("mode", data_factory sMode true none)],
    datasets_keyword := [(["mode"], sMode)],
    enabled := true, loaded := false, external_file_name := none,
    blk_trailing_comment := [], blk_post_comment := "\n" }

def c9Env : LoadEnv :=
  ⟨fun _ l _ => ⟨false, none, 0, some (.vstr (joinLine l)), none⟩,
   fun n => if n == "sub.txt" then some [["fast", "1.0"]] else none,
   fun _ => false⟩

def c9StExt : BlockState :=
  { c9St with external_file_name := some "sub.txt"
              datasets := [("mode", some ⟨sMode, some (.vstr "fast"), true, true, true, []⟩)] }

def c9WEnvBad : WriteEnv :=
  ⟨fun _ _ _ => .error (.mfDataException "serializer failed"), true, "  "⟩

def c9WEnvOk : WriteEnv :=
  ⟨fun _ d _ => .ok (renderValue (d.value.getD (.vstr "")) ++ "\n"), true, "  "⟩

/-- C9 counterexample: the claim fails on both cited paths.  On load, the
`open/close` redirection opens the external file and the source contains
no corresponding `close` — the handle opened during a successful load is
never closed (`openedExternal` records every `open` of `MFBlock.load`,
and no code path closes one).  On write, there is no `try/finally`: when a
dataset serializer raises while the external file is open, `_write_block`
propagates the exception with the external handle still open and without
switching back to the parent handle. -/
theorem c9_counterexample :
    (MFBlock.load c9Env c5Cp c9St ⟨"myblk", [], "", []⟩
        [["open/close", "sub.txt"], ["END", "myblk"]]).openedExternal = ["sub.txt"] ∧
    (MFBlock.load c9Env c5Cp c9St ⟨"myblk", [], "", []⟩
        [["open/close", "sub.txt"], ["END", "myblk"]]).outcome = .ok ∧
    (MFBlock.load c9Env c5Cp c9St ⟨"myblk", [], "", []⟩
        [["open/close", "sub.txt"], ["END", "myblk"]]).state.external_file_name
      = some "sub.txt" ∧
    (MFBlock.write_block c9WEnvBad c9StExt ⟨"myblk", [], "", []⟩).extOpened = true ∧
    (MFBlock.write_block c9WEnvBad c9StExt ⟨"myblk", [], "", []⟩).extClosed = false ∧
    (MFBlock.write_block c9WEnvBad c9StExt ⟨"myblk", [], "", []⟩).outcome =
      .raised (.mfDataException "serializer failed") :=
  ⟨rfl, rfl, rfl, rfl, rfl, rfl⟩

/-- C9 amended: on the *successful* write path of a block with a recorded
external file, `_write_block` does restore the parent handle before
returning: the external handle is closed after the datasets and trailing
comments, and the footer and post-block comment are written to the parent
file.  On error paths of write, and on load (which never closes the
external handle at all), the restoration claimed by the specification does
not happen. -/
theorem c9_write_success_restores (wenv : WriteEnv) (st : BlockState) (h : MFBlockHeader)
    (extName : String) (hext : st.external_file_name = some extName)
    (hok : (MFBlock.write_block wenv st h).outcome = .ok) :
    (MFBlock.write_block wenv st h).extOpened = true ∧
    (MFBlock.write_block wenv st h).extClosed = true ∧
    ∃ hdr ftr,
      h.write_header = .ok hdr ∧ h.write_footer = .ok ftr ∧
      (MFBlock.write_block wenv st h).parent =
        [hdr, wenv.indent ++ "open/close " ++ extName ++ "\n", ftr, st.blk_post_comment]
          ++ (if !wenv.comments_on then ["\n"] else []) := by
  cases hhdr : h.write_header with
  | error e => simp [MFBlock.write_block, hhdr] at hok
  | ok hdr =>
    cases htk : (if h.data_items.length > 0 then h.get_transient_key else Except.ok none) with
    | error e => simp [MFBlock.write_block, hhdr, htk] at hok
    | ok tkey =>
      cases hds : (writeDatasetsLoop wenv tkey st.datasets []).2 with
      | some e => simp [MFBlock.write_block, hhdr, htk, hext, hds] at hok
      | none =>
        cases hftr : h.write_footer with
        | error e => simp [MFBlock.write_block, hhdr, htk, hext, hds, hftr] at hok
        | ok ftr =>
          simp only [MFBlock.write_block, hhdr, htk, hext, hds, hftr]
          exact ⟨trivial, trivial, hdr, ftr, rfl, rfl, by simp⟩

theorem c9_witness :
    c9StExt.external_file_name = some "sub.txt" ∧
    (MFBlock.write_block c9WEnvOk c9StExt ⟨"myblk", [], "", []⟩).outcome = .ok ∧
    ((MFBlock.write_block c9WEnvOk c9StExt ⟨"myblk", [], "", []⟩).extOpened = true ∧
     (MFBlock.write_block c9WEnvOk c9StExt ⟨"myblk", [], "", []⟩).extClosed = true ∧
     ∃ hdr ftr,
       MFBlockHeader.write_header ⟨"myblk", [], "", []⟩ = .ok hdr ∧
       MFBlockHeader.write_footer ⟨"myblk", [], "", []⟩ = .ok ftr ∧
       (MFBlock.write_block c9WEnvOk c9StExt ⟨"myblk", [], "", []⟩).parent =
         [hdr, c9WEnvOk.indent ++ "open/close " ++ "sub.txt" ++ "\n", ftr,
           c9StExt.blk_post_comment]
           ++ (if !c9WEnvOk.comments_on then ["\n"] else [])) :=
  ⟨rfl, rfl, c9_write_success_restores c9WEnvOk c9StExt ⟨"myblk", [], "", []⟩ "sub.txt" rfl rfl⟩

end Flopy
